import Mathlib

/-!
# CEP → temperature relay: Gateway (service-a) and Orchestrator (service-b)

A shallow embedding of the two HTTP handlers of the repository
(`service-a/main.go`: `handleZipCodeRequest`; `service-b/main.go`:
`handleTemperatureRequest`, `getLocation`, `getTemperature`) together with the
pieces of the Go standard library whose behaviour the handlers depend on:

* Go strings are byte sequences and `len` counts bytes;
* `float64` is IEEE 754 binary64 with round-to-nearest-even, every operation
  rounded on its own;
* `encoding/json` decoding into a struct with one string field and into
  `map[string]interface{}`, and encoding of a struct with `float64` fields;
* `net/http`: `http.Error`, `ResponseWriter.WriteHeader`, `ResponseWriter.Write`;
* `net/url`: `URL.Query().Get`.

The outside world (the peers answering outbound HTTP calls, the inbound request)
is an explicit environment argument; every handler returns the response it
produced together with the list of calls it made.  A body that a handler decodes
is given by what the JSON scanner finds in it (no JSON value, or one JSON value
with its members in source order); a body that a handler only passes on is a list
of writes.  float64 multiplication and addition are rounded one by one, as the Go
compiler does on amd64 (no fused multiply-add).  Tracing spans have no effect on
the responses and are left out.
-/

namespace CepTemperatura

/-! ## Go strings -/

/-- A Go string: an immutable sequence of bytes. -/
abbrev GoString := List UInt8

/-- The bytes of a Go string literal (Go source text is UTF-8). -/
def utf8 (s : String) : GoString := s.toList.flatMap String.utf8EncodeChar

/-- Go builtin `len` on a string: the number of bytes. -/
def len (s : GoString) : Nat := s.length

/-- Number of characters (Unicode code points) of a text, as opposed to the number of
bytes of its UTF-8 encoding that `len` reports. -/
def charCount (s : String) : Nat := s.length

/-- An ASCII character (below `utf8.RuneSelf`): one whose UTF-8 encoding is a single byte. -/
def isASCII (c : Char) : Bool := decide (c.val ≤ 0x7f)

/-! ## Errors -/

/-- Go `error` values that occur in the two services, by origin. -/
inductive GoError
  /-- an error handed back by the HTTP client or by reading a body (DNS, refused
  connection, timeout, invalid URL, reset connection, ...) -/
  | transport (detail : String)
  /-- the bytes are not one JSON value (`*json.SyntaxError`, `io.EOF`, ...) -/
  | jsonSyntax (detail : String)
  /-- `*json.UnmarshalTypeError`: a JSON value does not fit the Go target -/
  | jsonType (detail : String)
  /-- `*json.UnsupportedValueError`: NaN or an infinity cannot be encoded -/
  | jsonUnsupportedValue
  /-- `fmt.Errorf("city not found for zipcode %s", zipcode)` -/
  | cityNotFound (zipcode : GoString)
  /-- `fmt.Errorf("invalid response from weather API")` -/
  | invalidWeatherResponse
  /-- `fmt.Errorf("invalid temperature data from weather API")` -/
  | invalidTemperatureData
deriving DecidableEq

-- Equality of Go results `(value, error)` is decidable.
deriving instance DecidableEq for Except

/-! ## float64 -/

/-- An IEEE 754 binary64 value.  `fin neg m e` is `(-1)^neg * m * 2^e` in the canonical
form `m < 2^53`, `-1074 ≤ e ≤ 971`, and `2^52 ≤ m` unless `e = -1074`
(subnormals and the two zeros have `e = -1074`). -/
inductive F64
  | nan
  | inf (neg : Bool)
  | fin (neg : Bool) (m : Nat) (e : Int)
deriving DecidableEq

/-- Auxiliary loop of `bitLen`. -/
def bitLenAux : Nat → Nat → Nat
  | 0, _ => 0
  | fuel + 1, n => if n = 0 then 0 else bitLenAux fuel (n / 2) + 1

/-- Number of binary digits of `n`. -/
def bitLen (n : Nat) : Nat := bitLenAux n n

/-- The integer `k` with `2^k ≤ a / b < 2^(k+1)`, for positive `a` and `b`. -/
def floorLog2 (a b : Nat) : Int :=
  let k : Int := (bitLen a : Int) - (bitLen b : Int)
  if 0 ≤ k then (if b * 2 ^ k.toNat ≤ a then k else k - 1)
  else (if b ≤ a * 2 ^ (-k).toNat then k else k - 1)

/-- Round the non-negative rational `a / b` (with `0 < b`) to the nearest binary64 value,
ties to even, overflowing to an infinity; `neg` is the sign of the result. -/
def F64.round (neg : Bool) (a b : Nat) : F64 :=
  if a = 0 then .fin neg 0 (-1074)
  else
    let e : Int := max (floorLog2 a b - 52) (-1074)
    let num : Nat := if 0 ≤ e then a else a * 2 ^ (-e).toNat
    let den : Nat := if 0 ≤ e then b * 2 ^ e.toNat else b
    let q := num / den
    let r := num % den
    let m := if den < 2 * r ∨ (2 * r = den ∧ q % 2 = 1) then q + 1 else q
    let m1 := if m = 2 ^ 53 then 2 ^ 52 else m
    let e1 := if m = 2 ^ 53 then e + 1 else e
    if 971 < e1 then .inf neg else .fin neg m1 e1

/-- Round `m * 2^e` to binary64. -/
def F64.roundDyadic (neg : Bool) (m : Nat) (e : Int) : F64 :=
  if 0 ≤ e then F64.round neg (m * 2 ^ e.toNat) 1 else F64.round neg m (2 ^ (-e).toNat)

/-- Go `x * y` on float64. -/
def F64.mul : F64 → F64 → F64
  | .nan, _ => .nan
  | _, .nan => .nan
  | .inf s, .inf t => .inf (xor s t)
  | .inf s, .fin t m _ => if m = 0 then .nan else .inf (xor s t)
  | .fin s m _, .inf t => if m = 0 then .nan else .inf (xor s t)
  | .fin s m₁ e₁, .fin t m₂ e₂ => F64.roundDyadic (xor s t) (m₁ * m₂) (e₁ + e₂)

/-- The integer `n` or `-n`. -/
def signedInt (neg : Bool) (n : Nat) : Int := if neg then -(n : Int) else (n : Int)

/-- Go `x + y` on float64. -/
def F64.add : F64 → F64 → F64
  | .nan, _ => .nan
  | _, .nan => .nan
  | .inf s, .inf t => if s = t then .inf s else .nan
  | .inf s, .fin _ _ _ => .inf s
  | .fin _ _ _, .inf t => .inf t
  | .fin s m₁ e₁, .fin t m₂ e₂ =>
    let e := min e₁ e₂
    let z : Int := signedInt s (m₁ * 2 ^ (e₁ - e).toNat) + signedInt t (m₂ * 2 ^ (e₂ - e).toNat)
    if z = 0 then .fin (s && t) 0 (-1074)
    else F64.roundDyadic (decide (z < 0)) z.natAbs e

/-- Go `x == y` on float64: NaN equals nothing, the two zeros are equal. -/
def F64.eq : F64 → F64 → Bool
  | .nan, _ => false
  | _, .nan => false
  | .inf s, .inf t => s == t
  | .inf _, .fin _ _ _ => false
  | .fin _ _ _, .inf _ => false
  | .fin s m₁ e₁, .fin t m₂ e₂ => (m₁ == 0 && m₂ == 0) || (s == t && m₁ == m₂ && e₁ == e₂)

/-- Neither NaN nor an infinity (`!math.IsInf(f, 0) && !math.IsNaN(f)`). -/
def F64.isFinite : F64 → Bool
  | .fin _ _ _ => true
  | _ => false

/-- The float64 nearest to the decimal `(-1)^neg * digits * 10^exp10`: the value of a
Go floating-point constant and of `strconv.ParseFloat(s, 64)`. -/
def F64.ofDecimal (neg : Bool) (digits : Nat) (exp10 : Int) : F64 :=
  if 0 ≤ exp10 then F64.round neg (digits * 10 ^ exp10.toNat) 1
  else F64.round neg digits (10 ^ (-exp10).toNat)

/-- The constant `1.8` of `getTemperature`, converted to float64. -/
def c1_8 : F64 := F64.ofDecimal false 18 (-1)

/-- The constant `32` of `getTemperature`, converted to float64. -/
def c32 : F64 := F64.ofDecimal false 32 0

/-- The constant `273.15` of `getTemperature`, converted to float64. -/
def c273_15 : F64 := F64.ofDecimal false 27315 (-2)

/-! ## JSON -/

/-- A JSON number literal: the decimal `(-1)^neg * digits * 10^exp10`. -/
structure JNumber where
  neg : Bool
  digits : Nat
  exp10 : Int
deriving DecidableEq

/-- A JSON value; an object keeps its members in source order, duplicates included.  A
string is given as the decoder delivers it (escapes resolved, and invalid UTF-8 in the
input already replaced by U+FFFD). -/
inductive JSON
  | null
  | bool (b : Bool)
  | num (n : JNumber)
  | str (s : GoString)
  | arr (items : List JSON)
  | obj (fields : List (GoString × JSON))

/-- The bytes handed to a JSON decoder, described by what the decoder finds in them:
either no JSON value (with the decoder's complaint) or one JSON value. -/
inductive Payload
  | malformed (detail : String)
  | value (v : JSON)

/-- `strconv.ParseFloat(s, 64)` on a JSON number literal: `none` when the value is out of
range (the result would be an infinity). -/
def JNumber.toFloat64 (n : JNumber) : Option F64 :=
  match F64.ofDecimal n.neg n.digits n.exp10 with
  | .fin s m e => some (.fin s m e)
  | _ => none

/-- What `encoding/json` stores into an `interface{}`. -/
inductive GoValue
  | nil
  | bool (b : Bool)
  | float64 (f : F64)
  | string (s : GoString)
  | slice (items : List GoValue)
  | map (entries : List (GoString × GoValue))

/-- Lower-case an ASCII letter. -/
def asciiLower (b : UInt8) : UInt8 := if 65 ≤ b ∧ b ≤ 90 then b + 32 else b

/-- Case-insensitive match of a JSON object key against a struct field name made of
ASCII letters other than `k` and `s` (as `cep` and `localidade` are). -/
def equalFold (key name : GoString) : Bool := key.map asciiLower == name.map asciiLower

/-- The loop of `encoding/json` over the members of an object decoded into a struct
whose only field is a string tagged `name`: a matching member holding a string sets
the field, holding `null` leaves it, holding anything else records an
`UnmarshalTypeError` (the first one is kept) and decoding goes on. -/
def storeStringField (name : GoString) :
    List (GoString × JSON) → GoString → Option GoError → GoString × Option GoError
  | [], cur, err => (cur, err)
  | (k, v) :: rest, cur, err =>
    if equalFold k name then
      match v with
      | .str s => storeStringField name rest s err
      | .null => storeStringField name rest cur err
      | _ =>
        storeStringField name rest cur
          (match err with
           | some e => some e
           | none => some (.jsonType "cannot unmarshal into Go struct field of type string"))
    else storeStringField name rest cur err

/-- Decoding (`json.Unmarshal` or `json.Decoder.Decode`) into a zero-valued struct whose
only field is a string tagged `name`; returns the field. -/
def decodeStringStruct (name : GoString) : Payload → Except GoError GoString
  | .malformed d => .error (.jsonSyntax d)
  | .value .null => .ok []
  | .value (.obj fields) =>
    match storeStringField name fields [] none with
    | (s, none) => .ok s
    | (_, some e) => .error e
  | .value _ => .error (.jsonType "cannot unmarshal into Go value of struct type")

mutual
/-- Decoding of a JSON value into an `interface{}`; a number out of the float64 range is an
`UnmarshalTypeError`. -/
def JSON.toGoValue : JSON → Except GoError GoValue
  | .null => .ok .nil
  | .bool b => .ok (.bool b)
  | .num n =>
    match n.toFloat64 with
    | some f => .ok (.float64 f)
    | none => .error (.jsonType "cannot unmarshal number into Go value of type float64")
  | .str s => .ok (.string s)
  | .arr items =>
    match toGoValues items with
    | .ok vs => .ok (.slice vs)
    | .error e => .error e
  | .obj fields =>
    match toGoEntries fields with
    | .ok es => .ok (.map es)
    | .error e => .error e
/-- Decoding of the elements of a JSON array. -/
def toGoValues : List JSON → Except GoError (List GoValue)
  | [] => .ok []
  | x :: xs =>
    match x.toGoValue with
    | .error e => .error e
    | .ok v =>
      match toGoValues xs with
      | .ok vs => .ok (v :: vs)
      | .error e => .error e
/-- Decoding of the members of a JSON object, kept in source order. -/
def toGoEntries : List (GoString × JSON) → Except GoError (List (GoString × GoValue))
  | [] => .ok []
  | (k, x) :: xs =>
    match x.toGoValue with
    | .error e => .error e
    | .ok v =>
      match toGoEntries xs with
      | .ok vs => .ok ((k, v) :: vs)
      | .error e => .error e
end

/-- Go map read `m[key]` on a map filled from `entries` in order (a later duplicate
key overwrites an earlier one); `none` is the missing key (a nil interface). -/
def mapIndex {α : Type} (key : GoString) : List (GoString × α) → Option α
  | [] => none
  | (k, v) :: rest =>
    match mapIndex key rest with
    | some w => some w
    | none => if k = key then some v else none

/-- `json.Unmarshal(body, &data)` with `var data map[string]interface{}`. -/
def unmarshalMap : Payload → Except GoError (List (GoString × GoValue))
  | .malformed d => .error (.jsonSyntax d)
  | .value .null => .ok []
  | .value (.obj fields) => toGoEntries fields
  | .value _ => .error (.jsonType "cannot unmarshal into Go value of type map[string]interface")

/-! ## net/url: query strings -/

/-- Split at the first occurrence of `sep` (`strings.Cut`): the text before it and the
text after it; without a separator the whole text and the empty text. -/
def cut (sep : UInt8) : GoString → GoString × GoString
  | [] => ([], [])
  | b :: rest => if b = sep then ([], rest) else ((cut sep rest).1.cons b, (cut sep rest).2)

/-- The pieces between the occurrences of `sep`. -/
def splitOn (sep : UInt8) : GoString → List GoString
  | [] => [[]]
  | b :: rest =>
    if b = sep then [] :: splitOn sep rest
    else
      match splitOn sep rest with
      | [] => [[b]]
      | seg :: segs => (b :: seg) :: segs

/-- Value of a hexadecimal digit. -/
def unhex (b : UInt8) : Option UInt8 :=
  if 48 ≤ b ∧ b ≤ 57 then some (b - 48)
  else if 97 ≤ b ∧ b ≤ 102 then some (b - 97 + 10)
  else if 65 ≤ b ∧ b ≤ 70 then some (b - 65 + 10)
  else none

/-- `url.QueryUnescape`: `%XY` becomes the byte with that hexadecimal value, `+` becomes
a space; `none` when a `%` is not followed by two hexadecimal digits. -/
def queryUnescape : GoString → Option GoString
  | [] => some []
  | b :: rest =>
    if b = 37 then
      match rest with
      | h :: l :: rest2 =>
        match unhex h, unhex l, queryUnescape rest2 with
        | some x, some y, some r => some ((x * 16 + y) :: r)
        | _, _, _ => none
      | _ => none
    else if b = 43 then (queryUnescape rest).map (List.cons 32)
    else (queryUnescape rest).map (List.cons b)

/-- One `key=value` piece of a query string, as `url.ParseQuery` (Go 1.17 and later)
treats it: a piece that is empty, holds a semicolon or has a bad escape is dropped. -/
def parsePair (seg : GoString) : Option (GoString × GoString) :=
  if seg.contains 59 then none
  else if seg = [] then none
  else
    match queryUnescape (cut 61 seg).1, queryUnescape (cut 61 seg).2 with
    | some k, some v => some (k, v)
    | _, _ => none

/-- `url.ParseQuery` with its error discarded, as `URL.Query` does: the decoded pairs in
order of appearance. -/
def parseQuery (query : GoString) : List (GoString × GoString) :=
  (splitOn 38 query).filterMap parsePair

/-- `url.Values.Get`: the first value stored under `key`, or the empty string. -/
def valuesGet (key : GoString) : List (GoString × GoString) → GoString
  | [] => []
  | (k, v) :: rest => if k = key then v else valuesGet key rest

/-- The raw query of a URL given as text, as `url.Parse` finds it: the fragment (from the
first `#`) is cut off, and the query is what follows the first `?`.  The HTTP client
sends it unchanged in the request line, where the receiving server reads it back. -/
def rawQueryOf (url : GoString) : GoString := (cut 63 (cut 35 url).1).2

/-! ## net/http: the response writer -/

/-- One `Write` to the response body. -/
inductive Chunk
  /-- literal bytes -/
  | bytes (b : GoString)
  /-- the text `json.Encoder.Encode` produces for a `Temperature` struct: the JSON object
  with the members `city`, `temp_c`, `temp_f`, `temp_k` (in this order, with these
  values) followed by a newline -/
  | jsonLine (city : GoString) (tempC tempF tempK : F64)
deriving DecidableEq

/-- State of an `http.ResponseWriter` while a handler runs. -/
structure ResponseWriter where
  /-- header map as set by the handler -/
  header : List (String × String)
  /-- status code, once the header has been written -/
  status : Option Nat
  /-- the writes to the body, in order -/
  body : List Chunk
deriving DecidableEq

/-- The response a caller receives. -/
structure Response where
  status : Nat
  header : List (String × String)
  body : List Chunk
deriving DecidableEq

/-- A fresh response writer. -/
def ResponseWriter.new : ResponseWriter := ⟨[], none, []⟩

/-- `w.Header().Del(key)`. -/
def ResponseWriter.delHeader (w : ResponseWriter) (key : String) : ResponseWriter :=
  { w with header := w.header.filter (fun kv => kv.1 ≠ key) }

/-- `w.Header().Set(key, value)`. -/
def ResponseWriter.setHeader (w : ResponseWriter) (key value : String) : ResponseWriter :=
  { w with header := (w.header.filter (fun kv => kv.1 ≠ key)) ++ [(key, value)] }

/-- `w.WriteHeader(code)`: panics (`none`) on a code outside 100..999, is ignored once a
header has been written, and fixes the status otherwise.  (Informational 1xx codes get
no special treatment here; no handler below passes one, and Go's HTTP client does not
hand a 1xx response other than 101 to its caller.) -/
def ResponseWriter.writeHeader (w : ResponseWriter) (code : Nat) : Option ResponseWriter :=
  if code < 100 ∨ 999 < code then none
  else if w.status.isSome then some w
  else some { w with status := some code }

/-- `bodyAllowedForStatus` of net/http. -/
def bodyAllowedForStatus (status : Nat) : Bool :=
  if 100 ≤ status ∧ status ≤ 199 then false
  else if status = 204 then false
  else if status = 304 then false
  else true

/-- `w.Write(p)`: writes the header with status 200 if none was written, then appends to
the body unless the status forbids a body. -/
def ResponseWriter.write (w : ResponseWriter) (c : Chunk) : ResponseWriter :=
  let st := w.status.getD 200
  if bodyAllowedForStatus st then { w with status := some st, body := w.body ++ [c] }
  else { w with status := some st }

/-- What the server sends when the handler returns: status 200 if no header was written. -/
def ResponseWriter.finish (w : ResponseWriter) : Response :=
  ⟨w.status.getD 200, w.header, w.body⟩

/-- `http.Error(w, msg, code)`: plain-text content type, the status code, and the message
followed by a newline. -/
def httpError (w : ResponseWriter) (msg : String) (code : Nat) : Option ResponseWriter :=
  let w1 := ((w.delHeader "Content-Length").setHeader "Content-Type"
    "text/plain; charset=utf-8").setHeader "X-Content-Type-Options" "nosniff"
  (w1.writeHeader code).map (fun w2 => w2.write (.bytes (utf8 msg ++ [10])))

/-- The header `http.Error` leaves behind. -/
def plainTextHeader : List (String × String) :=
  [("Content-Type", "text/plain; charset=utf-8"), ("X-Content-Type-Options", "nosniff")]

/-- The response `http.Error(w, msg, code)` yields on a fresh writer (for a valid code). -/
def errorResponse (msg : String) (code : Nat) : Response :=
  ⟨code, plainTextHeader, [.bytes (utf8 msg ++ [10])]⟩

/-- Calls a handler makes, in order. -/
inductive Event
  /-- service-a: `http.Get(url)` -/
  | httpGet (url : GoString)
  /-- service-b: `getLocation(ctx, zipcode)` -/
  | getLocation (zipcode : GoString)
  /-- service-b: `getTemperature(ctx, city)` -/
  | getTemperature (city : GoString)
  /-- service-b: `client.Do(req)` for a GET of `url` -/
  | clientDo (url : GoString)
deriving DecidableEq

/-- Result of running a handler: the response (`none` if the handler panicked) and the
calls it made. -/
abbrev Run := Option Response × List Event

/-! ## service-a: the Gateway -/

/-- `type ZipCodeRequest struct { ZipCode string (json tag cep) }`. -/
structure ZipCodeRequest where
  zipCode : GoString
deriving DecidableEq

/-- An inbound request to `/zipcode`: its method and its body as the JSON decoder reads
it. -/
structure ZipRequest where
  method : String
  body : Payload

/-- What `http.Get(url)` followed by `ioutil.ReadAll(resp.Body)` gives. -/
inductive GetResult
  /-- `http.Get` returned an error -/
  | failed (e : GoError)
  /-- `http.Get` returned a response whose body could not be read -/
  | unreadable (status : Nat) (e : GoError)
  /-- a response with its status code and the bytes of its body -/
  | response (status : Nat) (body : List Chunk)

/-- The world as service-a sees it. -/
structure GatewayEnv where
  /-- outcome of `http.Get` for a URL -/
  get : GoString → GetResult

/-- `json.NewDecoder(r.Body).Decode(&req)` with `var req ZipCodeRequest`. -/
def decodeZipCodeRequest (body : Payload) : Except GoError ZipCodeRequest :=
  match decodeStringStruct (utf8 "cep") body with
  | .ok s => .ok ⟨s⟩
  | .error e => .error e

/-- The URL service-a calls for a code. -/
def forwardURL (zipCode : GoString) : GoString :=
  utf8 "http://service-b:8081/temperature?zipcode=" ++ zipCode

/-- `handleZipCodeRequest` of service-a. -/
def handleZipCodeRequest (env : GatewayEnv) (r : ZipRequest) : Run :=
  let w := ResponseWriter.new
  if r.method ≠ "POST" then
    ((httpError w "Method not allowed" 405).map ResponseWriter.finish, [])
  else
    match decodeZipCodeRequest r.body with
    | .error _ => ((httpError w "Invalid request payload" 400).map ResponseWriter.finish, [])
    | .ok req =>
      if len req.zipCode ≠ 8 then
        ((httpError w "Invalid zipcode" 422).map ResponseWriter.finish, [])
      else
        match env.get (forwardURL req.zipCode) with
        | .failed _ =>
          ((httpError w "Failed to get temperature" 500).map ResponseWriter.finish,
            [.httpGet (forwardURL req.zipCode)])
        | .unreadable _ _ =>
          ((httpError w "Failed to read response body" 500).map ResponseWriter.finish,
            [.httpGet (forwardURL req.zipCode)])
        | .response status body =>
          (((w.writeHeader status).map
              (fun w1 => body.foldl ResponseWriter.write w1)).map ResponseWriter.finish,
            [.httpGet (forwardURL req.zipCode)])

/-! ## service-b: the Orchestrator -/

/-- `type Location struct { City string (json tag localidade) }`. -/
structure Location where
  city : GoString
deriving DecidableEq

/-- `type Temperature struct { City string; TempC, TempF, TempK float64 }` with the json
tags `city`, `temp_c`, `temp_f`, `temp_k`. -/
structure Temperature where
  city : GoString
  tempC : F64
  tempF : F64
  tempK : F64
deriving DecidableEq

/-- An inbound request to `/temperature`: the raw query of its URL. -/
structure TempRequest where
  rawQuery : GoString

/-- What `client.Do(req)` followed by `ioutil.ReadAll(resp.Body)` gives. -/
inductive DoResult
  /-- `client.Do` returned an error -/
  | failed (e : GoError)
  /-- `client.Do` returned a response whose body could not be read -/
  | unreadable (status : Nat) (e : GoError)
  /-- a response with its status code and its body -/
  | response (status : Nat) (body : Payload)

/-- The world as service-b sees it. -/
structure OrchEnv where
  /-- `os.Getenv("WEATHER_API_KEY")` -/
  apiKey : GoString
  /-- error of `http.NewRequestWithContext(ctx, http.MethodGet, url, nil)`, if any -/
  newRequest : GoString → Option GoError
  /-- outcome of `client.Do` for a GET of a URL -/
  clientDo : GoString → DoResult

/-- `json.Unmarshal(body, &location)` with `var location Location`. -/
def unmarshalLocation (body : Payload) : Except GoError Location :=
  match decodeStringStruct (utf8 "localidade") body with
  | .ok s => .ok ⟨s⟩
  | .error e => .error e

/-- The URL `getLocation` calls: `fmt.Sprintf("https://viacep.com.br/ws/%s/json/", zipcode)`. -/
def locationURL (zipcode : GoString) : GoString :=
  utf8 "https://viacep.com.br/ws/" ++ zipcode ++ utf8 "/json/"

/-- `getLocation` of service-b, with the outbound calls it made. -/
def getLocation (env : OrchEnv) (zipcode : GoString) : Except GoError Location × List Event :=
  match env.newRequest (locationURL zipcode) with
  | some e => (.error e, [])
  | none =>
    match env.clientDo (locationURL zipcode) with
    | .failed e => (.error e, [.clientDo (locationURL zipcode)])
    | .unreadable _ e => (.error e, [.clientDo (locationURL zipcode)])
    | .response _ body =>
      match unmarshalLocation body with
      | .error e => (.error e, [.clientDo (locationURL zipcode)])
      | .ok location =>
        if location.city = [] then
          (.error (.cityNotFound zipcode), [.clientDo (locationURL zipcode)])
        else (.ok location, [.clientDo (locationURL zipcode)])

/-- The URL `getTemperature` calls:
`fmt.Sprintf("https://api.weatherapi.com/v1/current.json?key=%s&q=%s", apiKey, city)`. -/
def weatherURL (apiKey city : GoString) : GoString :=
  utf8 "https://api.weatherapi.com/v1/current.json?key=" ++ apiKey ++ utf8 "&q=" ++ city

/-- The tail of `getTemperature`, from the decoded map on: the two checked type assertions
and the unit conversion. -/
def readTemperature (city : GoString) (data : List (GoString × GoValue)) :
    Except GoError Temperature :=
  match mapIndex (utf8 "current") data with
  | some (.map current) =>
    match mapIndex (utf8 "temp_c") current with
    | some (.float64 tempC) =>
      .ok ⟨city, tempC, F64.add (F64.mul tempC c1_8) c32, F64.add tempC c273_15⟩
    | _ => .error .invalidTemperatureData
  | _ => .error .invalidWeatherResponse

/-- `getTemperature` of service-b, with the outbound calls it made. -/
def getTemperature (env : OrchEnv) (city : GoString) :
    Except GoError Temperature × List Event :=
  match env.newRequest (weatherURL env.apiKey city) with
  | some e => (.error e, [])
  | none =>
    match env.clientDo (weatherURL env.apiKey city) with
    | .failed e => (.error e, [.clientDo (weatherURL env.apiKey city)])
    | .unreadable _ e => (.error e, [.clientDo (weatherURL env.apiKey city)])
    | .response _ body =>
      match unmarshalMap body with
      | .error e => (.error e, [.clientDo (weatherURL env.apiKey city)])
      | .ok data => (readTemperature city data, [.clientDo (weatherURL env.apiKey city)])

/-- `json.NewEncoder(w).Encode(temperature)`: the encoder refuses NaN and infinities and
then writes nothing at all; otherwise it writes the object and a newline in one write. -/
def encodeTemperature (w : ResponseWriter) (t : Temperature) : Except GoError ResponseWriter :=
  if t.tempC.isFinite && t.tempF.isFinite && t.tempK.isFinite then
    .ok (w.write (.jsonLine t.city t.tempC t.tempF t.tempK))
  else .error .jsonUnsupportedValue

/-- `r.URL.Query().Get("zipcode")`. -/
def zipcodeOf (r : TempRequest) : GoString := valuesGet (utf8 "zipcode") (parseQuery r.rawQuery)

/-- `handleTemperatureRequest` of service-b. -/
def handleTemperatureRequest (env : OrchEnv) (r : TempRequest) : Run :=
  let w := ResponseWriter.new
  let zipcode := zipcodeOf r
  if len zipcode ≠ 8 then
    ((httpError w "Invalid zipcode" 422).map ResponseWriter.finish, [])
  else
    match getLocation env zipcode with
    | (.error _, calls) =>
      ((httpError w "Can not find zipcode" 404).map ResponseWriter.finish,
        .getLocation zipcode :: calls)
    | (.ok location, calls) =>
      match getTemperature env location.city with
      | (.error _, calls2) =>
        ((httpError w "Failed to get temperature" 500).map ResponseWriter.finish,
          .getLocation zipcode :: calls ++ .getTemperature location.city :: calls2)
      | (.ok temperature, calls2) =>
        (some
          (match encodeTemperature (w.setHeader "Content-Type" "application/json") temperature with
           | .ok w1 => w1.finish
           | .error _ => (w.setHeader "Content-Type" "application/json").finish),
          .getLocation zipcode :: calls ++ .getTemperature location.city :: calls2)

/-! ## Vocabulary of the specification -/

/-- A JSON object has no member `name`: no key matches it (struct decoding matches keys
without regard to case). -/
def FieldAbsent (name : GoString) (fields : List (GoString × JSON)) : Prop :=
  ∀ kv ∈ fields, equalFold kv.1 name = false

/-- The member `name` of a JSON object is the empty string: the last member under a
matching key holds the empty string. -/
def FieldEmpty (name : GoString) (fields : List (GoString × JSON)) : Prop :=
  ∃ pre k post, fields = pre ++ (k, JSON.str []) :: post ∧ equalFold k name = true ∧
    FieldAbsent name post

/-- The causes of a failed postal lookup: the request cannot be built or sent, the body
cannot be read, the body is not JSON, or the `localidade` member is absent or empty. -/
def LocationLookupFails (env : OrchEnv) (zipcode : GoString) : Prop :=
  (∃ e, env.newRequest (locationURL zipcode) = some e) ∨
  (∃ e, env.clientDo (locationURL zipcode) = .failed e) ∨
  (∃ s e, env.clientDo (locationURL zipcode) = .unreadable s e) ∨
  (∃ s d, env.clientDo (locationURL zipcode) = .response s (.malformed d)) ∨
  (∃ s fields, env.clientDo (locationURL zipcode) = .response s (.value (.obj fields)) ∧
    (FieldAbsent (utf8 "localidade") fields ∨ FieldEmpty (utf8 "localidade") fields))

/-- The causes of a failed weather lookup: the request cannot be built or sent, the body
cannot be read, the body is not a JSON object, its `current` member is missing or not an
object, or the `temp_c` member of `current` is missing or not a number. -/
def WeatherLookupFails (env : OrchEnv) (city : GoString) : Prop :=
  (∃ e, env.newRequest (weatherURL env.apiKey city) = some e) ∨
  (∃ e, env.clientDo (weatherURL env.apiKey city) = .failed e) ∨
  (∃ s e, env.clientDo (weatherURL env.apiKey city) = .unreadable s e) ∨
  (∃ s body, env.clientDo (weatherURL env.apiKey city) = .response s body ∧
    ∀ fields, body ≠ .value (.obj fields)) ∨
  (∃ s fields, env.clientDo (weatherURL env.apiKey city) = .response s (.value (.obj fields)) ∧
    ∀ cur, mapIndex (utf8 "current") fields ≠ some (.obj cur)) ∨
  (∃ s fields cur,
    env.clientDo (weatherURL env.apiKey city) = .response s (.value (.obj fields)) ∧
    mapIndex (utf8 "current") fields = some (.obj cur) ∧
    ∀ n, mapIndex (utf8 "temp_c") cur ≠ some (.num n))

/-! ## Sample worlds -/

/-- A request body holding the JSON object with the single member `cep`. -/
def cepBody (code : GoString) : Payload := .value (.obj [(utf8 "cep", .str code)])

/-- A world in which service-b cannot be reached. -/
def gatewayDown : GatewayEnv := ⟨fun _ => .failed (.transport "connection refused")⟩

/-- A world in which reading the answer of service-b breaks off. -/
def gatewayCutOff : GatewayEnv := ⟨fun _ => .unreadable 200 (.transport "unexpected EOF")⟩

/-- A world in which service-b answers every call with the given status and body. -/
def gatewayAnswer (status : Nat) (body : List Chunk) : GatewayEnv :=
  ⟨fun _ => .response status body⟩

/-- A world in which no outbound call of service-b gets through. -/
def orchDown : OrchEnv := ⟨utf8 "KEY", fun _ => none, fun _ => .failed (.transport "no such host")⟩

/-- The answer of the postal lookup for a known code. -/
def postalBody (city : GoString) : Payload :=
  .value (.obj [(utf8 "cep", .str (utf8 "01001-000")), (utf8 "localidade", .str city),
    (utf8 "uf", .str (utf8 "SP"))])

/-- The answer of the postal lookup for an unknown code. -/
def postalUnknown : Payload := .value (.obj [(utf8 "erro", .bool true)])

/-- An answer of the weather lookup with `current.temp_c` set to `n`. -/
def weatherBody (n : JNumber) : Payload :=
  .value (.obj [(utf8 "location", .obj [(utf8 "country", .str (utf8 "Brazil"))]),
    (utf8 "current", .obj [(utf8 "last_updated_epoch", .num ⟨false, 1700000000, 0⟩),
      (utf8 "temp_c", .num n)])])

/-- An answer of the weather lookup that reports an error. -/
def weatherRefusal : Payload :=
  .value (.obj [(utf8 "error", .obj [(utf8 "code", .num ⟨false, 2006, 0⟩)])])

/-- A world in which the postal lookup knows the code `01001000` as the city `city` and
answers every other code as unknown, and the weather lookup answers `weather` for
every city. -/
def sampleWorld (city : GoString) (weather : Payload) : OrchEnv where
  apiKey := utf8 "KEY"
  newRequest := fun _ => none
  clientDo := fun url =>
    if url = locationURL (utf8 "01001000") then .response 200 (postalBody city)
    else if url = weatherURL (utf8 "KEY") city then .response 200 weather
    else .response 200 postalUnknown

/-- The inbound request `GET /temperature?zipcode=01001000`. -/
def sampleRequest : TempRequest := ⟨utf8 "zipcode=01001000"⟩

/-! ## Auxiliary facts -/

/-- On a fresh writer `http.Error` with a final status code that allows a body yields exactly
the plain-text error response. -/
theorem httpError_fresh (msg : String) (code : Nat) (h1 : 200 ≤ code) (h2 : code ≤ 999)
    (h3 : code ≠ 204) (h4 : code ≠ 304) :
    (httpError ResponseWriter.new msg code).map ResponseWriter.finish
      = some (errorResponse msg code) := by
  have hw : ¬ (code < 100 ∨ 999 < code) := by omega
  have hb : bodyAllowedForStatus code = true := by
    unfold bodyAllowedForStatus
    have : ¬ (100 ≤ code ∧ code ≤ 199) := by omega
    simp [this, h3, h4]
  simp [httpError, ResponseWriter.new, ResponseWriter.delHeader, ResponseWriter.setHeader,
    ResponseWriter.writeHeader, ResponseWriter.write, ResponseWriter.finish, errorResponse,
    plainTextHeader, hw, hb]

/-- Writing a body to a writer whose status allows one appends it unchanged. -/
theorem foldl_write (body : List Chunk) : ∀ (w : ResponseWriter) (s : Nat), w.status = some s →
    bodyAllowedForStatus s = true →
    body.foldl ResponseWriter.write w = { w with body := w.body ++ body } := by
  induction body with
  | nil => intro w s _ _; simp
  | cons c rest ih =>
    intro w s hs hb
    have hw : w.write c = { w with body := w.body ++ [c] } := by
      cases w with
      | mk hd st bd =>
        simp at hs
        subst hs
        simp [ResponseWriter.write, hb]
    rw [List.foldl_cons, hw, ih _ s (by simpa using hs) hb]
    simp

/-- Members under other keys leave the struct field and the recorded error as they are. -/
theorem storeStringField_absent (name : GoString) :
    ∀ (fields : List (GoString × JSON)) (cur : GoString) (err : Option GoError),
      (∀ kv ∈ fields, equalFold kv.1 name = false) →
      storeStringField name fields cur err = (cur, err) := by
  intro fields
  induction fields with
  | nil => intro cur err _; rfl
  | cons kv rest ih =>
    intro cur err h
    obtain ⟨k, v⟩ := kv
    have hk : equalFold k name = false := h (k, v) (by simp)
    have hrest := ih cur err (fun kv hkv => h kv (by simp [hkv]))
    simp [storeStringField, hk, hrest]

/-- Decoding the members of an object is a left-to-right pass. -/
theorem storeStringField_append (name : GoString) :
    ∀ (l₁ l₂ : List (GoString × JSON)) (cur : GoString) (err : Option GoError),
      storeStringField name (l₁ ++ l₂) cur err
        = storeStringField name l₂ (storeStringField name l₁ cur err).1
            (storeStringField name l₁ cur err).2 := by
  intro l₁
  induction l₁ with
  | nil => intro l₂ cur err; rfl
  | cons kv rest ih =>
    intro l₂ cur err
    obtain ⟨k, v⟩ := kv
    simp only [List.cons_append]
    by_cases hk : equalFold k name = true
    · cases v <;> simp [storeStringField, hk, ih]
    · simp [storeStringField, hk, ih]

/-- Reading a key of the decoded map agrees with reading it in the JSON object. -/
theorem mapIndex_toGoEntries (key : GoString) :
    ∀ (fields : List (GoString × JSON)) (es : List (GoString × GoValue)),
      toGoEntries fields = .ok es →
      (mapIndex key fields = none → mapIndex key es = none) ∧
      (∀ v, mapIndex key fields = some v →
        ∃ gv, v.toGoValue = .ok gv ∧ mapIndex key es = some gv) := by
  intro fields
  induction fields with
  | nil =>
    intro es h
    simp [toGoEntries] at h
    subst h
    simp [mapIndex]
  | cons kv rest ih =>
    intro es h
    obtain ⟨k, x⟩ := kv
    rw [toGoEntries] at h
    cases hx : x.toGoValue with
    | error e => simp [hx] at h
    | ok gx =>
      cases hr : toGoEntries rest with
      | error e => simp [hx, hr] at h
      | ok res =>
        simp [hx, hr] at h
        subst h
        obtain ⟨ihn, ihs⟩ := ih res hr
        constructor
        · intro hnone
          rw [mapIndex] at hnone ⊢
          cases hm : mapIndex key rest with
          | some w => simp [hm] at hnone
          | none =>
            simp [hm] at hnone
            simp [ihn hm, hnone]
        · intro v hv
          rw [mapIndex] at hv
          cases hm : mapIndex key rest with
          | some w =>
            simp [hm] at hv
            subst hv
            obtain ⟨gv, h1, h2⟩ := ihs w hm
            exact ⟨gv, h1, by rw [mapIndex]; simp [h2]⟩
          | none =>
            simp [hm] at hv
            obtain ⟨hk, hxv⟩ := hv
            subst hxv
            exact ⟨gx, hx, by rw [mapIndex]; simp [ihn hm, hk]⟩

/-! ### Orchestrator paths -/

/-- Orchestrator, validation path: a zipcode whose length is not 8. -/
theorem orch_invalid (env : OrchEnv) (r : TempRequest) (h : len (zipcodeOf r) ≠ 8) :
    handleTemperatureRequest env r = (some (errorResponse "Invalid zipcode" 422), []) := by
  simp [handleTemperatureRequest, h, httpError_fresh]

/-- Orchestrator, location path: `getLocation` returned an error. -/
theorem orch_location_error (env : OrchEnv) (r : TempRequest) (e : GoError)
    (h : len (zipcodeOf r) = 8) (hloc : (getLocation env (zipcodeOf r)).1 = .error e) :
    handleTemperatureRequest env r
      = (some (errorResponse "Can not find zipcode" 404),
          .getLocation (zipcodeOf r) :: (getLocation env (zipcodeOf r)).2) := by
  rcases hg : getLocation env (zipcodeOf r) with ⟨res, calls⟩
  rw [hg] at hloc
  simp at hloc
  subst hloc
  simp [handleTemperatureRequest, h, hg, httpError_fresh]

/-- Orchestrator, temperature path: `getTemperature` returned an error. -/
theorem orch_temperature_error (env : OrchEnv) (r : TempRequest) (loc : Location) (e : GoError)
    (h : len (zipcodeOf r) = 8) (hloc : (getLocation env (zipcodeOf r)).1 = .ok loc)
    (htemp : (getTemperature env loc.city).1 = .error e) :
    handleTemperatureRequest env r
      = (some (errorResponse "Failed to get temperature" 500),
          .getLocation (zipcodeOf r) :: (getLocation env (zipcodeOf r)).2 ++
            .getTemperature loc.city :: (getTemperature env loc.city).2) := by
  rcases hg : getLocation env (zipcodeOf r) with ⟨res, calls⟩
  rw [hg] at hloc
  simp at hloc
  subst hloc
  rcases ht : getTemperature env loc.city with ⟨res2, calls2⟩
  rw [ht] at htemp
  simp at htemp
  subst htemp
  simp [handleTemperatureRequest, h, hg, ht, httpError_fresh]

/-- Orchestrator, success path: the encoder writes the body when all three temperatures are
finite and nothing otherwise. -/
theorem orch_success (env : OrchEnv) (r : TempRequest) (loc : Location) (t : Temperature)
    (h : len (zipcodeOf r) = 8) (hloc : (getLocation env (zipcodeOf r)).1 = .ok loc)
    (htemp : (getTemperature env loc.city).1 = .ok t) :
    handleTemperatureRequest env r
      = (some
          (if t.tempC.isFinite && t.tempF.isFinite && t.tempK.isFinite then
            ⟨200, [("Content-Type", "application/json")],
              [.jsonLine t.city t.tempC t.tempF t.tempK]⟩
           else ⟨200, [("Content-Type", "application/json")], []⟩),
          .getLocation (zipcodeOf r) :: (getLocation env (zipcodeOf r)).2 ++
            .getTemperature loc.city :: (getTemperature env loc.city).2) := by
  rcases hg : getLocation env (zipcodeOf r) with ⟨res, calls⟩
  rw [hg] at hloc
  simp at hloc
  subst hloc
  rcases ht : getTemperature env loc.city with ⟨res2, calls2⟩
  rw [ht] at htemp
  simp at htemp
  subst htemp
  by_cases hf : (t.tempC.isFinite && t.tempF.isFinite && t.tempK.isFinite) = true
  · simp [handleTemperatureRequest, h, hg, ht, encodeTemperature, hf, ResponseWriter.new,
      ResponseWriter.setHeader, ResponseWriter.write, ResponseWriter.finish,
      bodyAllowedForStatus]
  · simp [handleTemperatureRequest, h, hg, ht, encodeTemperature, hf, ResponseWriter.new,
      ResponseWriter.setHeader, ResponseWriter.finish]

/-- The only outbound call of `getLocation` goes to the postal lookup. -/
theorem getLocation_calls (env : OrchEnv) (zipcode : GoString) :
    ∀ ev ∈ (getLocation env zipcode).2, ev = .clientDo (locationURL zipcode) := by
  intro ev hev
  unfold getLocation at hev
  split at hev
  · simp at hev
  · split at hev
    · simpa using hev
    · simpa using hev
    · split at hev
      · simpa using hev
      · split at hev <;> simpa using hev

/-- The only outbound call of `getTemperature` goes to the weather lookup. -/
theorem getTemperature_calls (env : OrchEnv) (city : GoString) :
    ∀ ev ∈ (getTemperature env city).2, ev = .clientDo (weatherURL env.apiKey city) := by
  intro ev hev
  unfold getTemperature at hev
  split at hev
  · simp at hev
  · split at hev
    · simpa using hev
    · simpa using hev
    · split at hev <;> simpa using hev

/-- Each listed cause makes `getLocation` return an error. -/
theorem getLocation_fails_of_cause (env : OrchEnv) (zipcode : GoString)
    (h : LocationLookupFails env zipcode) : ∃ e, (getLocation env zipcode).1 = .error e := by
  unfold getLocation
  cases hn : env.newRequest (locationURL zipcode) with
  | some e => exact ⟨e, rfl⟩
  | none =>
    rcases h with ⟨e, he⟩ | ⟨e, he⟩ | ⟨s, e, he⟩ | ⟨s, d, he⟩ | ⟨s, fields, he, hf⟩
    · rw [hn] at he; cases he
    · simp [he]
    · simp [he]
    · simp [he, unmarshalLocation, decodeStringStruct]
    · simp only [he, unmarshalLocation, decodeStringStruct]
      rcases hf with habs | ⟨pre, k, post, rfl, hk, hpost⟩
      · rw [storeStringField_absent _ _ _ _ habs]
        simp
      · rw [storeStringField_append]
        have hstep : ∀ cur err, storeStringField (utf8 "localidade") ((k, JSON.str []) :: post)
            cur err = ([], err) := by
          intro cur err
          simp [storeStringField, hk, storeStringField_absent _ _ _ _ hpost]
        rw [hstep]
        cases (storeStringField (utf8 "localidade") pre [] none).2 <;> simp

/-! ### Weather decoding -/

/-- Only a JSON object decodes to a Go map. -/
theorem toGoValue_map (v : JSON) (es : List (GoString × GoValue))
    (h : v.toGoValue = .ok (.map es)) : ∃ fields, v = .obj fields ∧ toGoEntries fields = .ok es := by
  cases v with
  | null => simp [JSON.toGoValue] at h
  | bool b => simp [JSON.toGoValue] at h
  | num n =>
    rw [JSON.toGoValue] at h
    cases hn : n.toFloat64 <;> simp [hn] at h
  | str s => simp [JSON.toGoValue] at h
  | arr items =>
    rw [JSON.toGoValue] at h
    cases hi : toGoValues items <;> simp [hi] at h
  | obj fields =>
    rw [JSON.toGoValue] at h
    cases hf : toGoEntries fields with
    | error e => simp [hf] at h
    | ok es2 =>
      simp [hf] at h
      subst h
      exact ⟨fields, rfl, hf⟩

/-- Only a JSON number in range decodes to a float64. -/
theorem toGoValue_float64 (v : JSON) (f : F64)
    (h : v.toGoValue = .ok (.float64 f)) : ∃ n, v = .num n ∧ n.toFloat64 = some f := by
  cases v with
  | null => simp [JSON.toGoValue] at h
  | bool b => simp [JSON.toGoValue] at h
  | num n =>
    rw [JSON.toGoValue] at h
    cases hn : n.toFloat64 with
    | none => simp [hn] at h
    | some g =>
      simp [hn] at h
      subst h
      exact ⟨n, rfl, hn⟩
  | str s => simp [JSON.toGoValue] at h
  | arr items =>
    rw [JSON.toGoValue] at h
    cases hi : toGoValues items <;> simp [hi] at h
  | obj fields =>
    rw [JSON.toGoValue] at h
    cases hf : toGoEntries fields <;> simp [hf] at h

/-- A key present in the decoded map is present in the JSON object, with the value it was
decoded from. -/
theorem mapIndex_toGoEntries_some (key : GoString) (fields : List (GoString × JSON))
    (es : List (GoString × GoValue)) (gv : GoValue) (h : toGoEntries fields = .ok es)
    (hgv : mapIndex key es = some gv) :
    ∃ v, mapIndex key fields = some v ∧ v.toGoValue = .ok gv := by
  obtain ⟨hn, hs⟩ := mapIndex_toGoEntries key fields es h
  cases hm : mapIndex key fields with
  | none => rw [hn hm] at hgv; cases hgv
  | some v =>
    obtain ⟨gv2, h1, h2⟩ := hs v hm
    rw [h2] at hgv
    cases hgv
    exact ⟨v, rfl, h1⟩

/-- Inversion of a successful `readTemperature`. -/
theorem readTemperature_ok (city : GoString) (fields : List (GoString × JSON))
    (data : List (GoString × GoValue)) (t : Temperature)
    (hdata : toGoEntries fields = .ok data) (h : readTemperature city data = .ok t) :
    ∃ cur n, mapIndex (utf8 "current") fields = some (.obj cur) ∧
      mapIndex (utf8 "temp_c") cur = some (.num n) ∧ n.toFloat64 = some t.tempC ∧
      t = ⟨city, t.tempC, F64.add (F64.mul t.tempC c1_8) c32, F64.add t.tempC c273_15⟩ := by
  unfold readTemperature at h
  split at h
  · rename_i current hcur
    split at h
    · rename_i tempC htc
      simp at h
      subst h
      obtain ⟨v, hv, hvg⟩ := mapIndex_toGoEntries_some _ _ _ _ hdata hcur
      obtain ⟨cur, rfl, hcurs⟩ := toGoValue_map v current hvg
      obtain ⟨v2, hv2, hvg2⟩ := mapIndex_toGoEntries_some _ _ _ _ hcurs htc
      obtain ⟨n, rfl, hn⟩ := toGoValue_float64 v2 tempC hvg2
      exact ⟨cur, n, hv, hv2, hn, rfl⟩
    · simp at h
  · simp at h

/-- Inversion of a successful `getTemperature`. -/
theorem getTemperature_ok (env : OrchEnv) (city : GoString) (t : Temperature)
    (h : (getTemperature env city).1 = .ok t) :
    ∃ s fields cur n,
      env.clientDo (weatherURL env.apiKey city) = .response s (.value (.obj fields)) ∧
      mapIndex (utf8 "current") fields = some (.obj cur) ∧
      mapIndex (utf8 "temp_c") cur = some (.num n) ∧ n.toFloat64 = some t.tempC ∧
      t = ⟨city, t.tempC, F64.add (F64.mul t.tempC c1_8) c32, F64.add t.tempC c273_15⟩ := by
  unfold getTemperature at h
  split at h
  · simp at h
  · split at h
    · simp at h
    · simp at h
    · rename_i s body hdo
      split at h
      · simp at h
      · rename_i data hdata
        simp only at h
        cases body with
        | malformed d => simp [unmarshalMap] at hdata
        | value v =>
          cases v with
          | obj fields =>
            simp only [unmarshalMap] at hdata
            obtain ⟨cur, n, h1, h2, h3, h4⟩ := readTemperature_ok city fields data t hdata h
            exact ⟨s, fields, cur, n, hdo, h1, h2, h3, h4⟩
          | null =>
            simp [unmarshalMap] at hdata
            subst hdata
            simp [readTemperature, mapIndex] at h
          | bool b => simp [unmarshalMap] at hdata
          | num n => simp [unmarshalMap] at hdata
          | str s => simp [unmarshalMap] at hdata
          | arr items => simp [unmarshalMap] at hdata

/-- The function `getTemperature` returns an error or a reading. -/
theorem getTemperature_total (env : OrchEnv) (city : GoString) :
    (∃ e, (getTemperature env city).1 = .error e) ∨ (∃ t, (getTemperature env city).1 = .ok t) := by
  cases h : (getTemperature env city).1 with
  | error e => exact Or.inl ⟨e, rfl⟩
  | ok t => exact Or.inr ⟨t, rfl⟩

/-- Each listed cause makes `getTemperature` return an error. -/
theorem getTemperature_fails_of_cause (env : OrchEnv) (city : GoString)
    (h : WeatherLookupFails env city) : ∃ e, (getTemperature env city).1 = .error e := by
  rcases getTemperature_total env city with he | ⟨t, ht⟩
  · exact he
  · exfalso
    obtain ⟨s, fields, cur, n, hdo, hcur, htc, _, _⟩ := getTemperature_ok env city t ht
    have hn : env.newRequest (weatherURL env.apiKey city) = none := by
      cases hn : env.newRequest (weatherURL env.apiKey city) with
      | none => rfl
      | some e => simp [getTemperature, hn] at ht
    rcases h with ⟨e, he⟩ | ⟨e, he⟩ | ⟨s2, e, he⟩ | ⟨s2, body, he, hb⟩ | ⟨s2, f2, he, hc⟩ |
      ⟨s2, f2, c2, he, hc, hnum⟩
    · rw [hn] at he; cases he
    · rw [hdo] at he; cases he
    · rw [hdo] at he; cases he
    · rw [hdo] at he
      cases he
      exact hb fields rfl
    · rw [hdo] at he
      cases he
      exact hc cur hcur
    · rw [hdo] at he
      cases he
      rw [hcur] at hc
      cases hc
      exact hnum n htc

/-! ### float64 -/

/-- An infinity or a finite value is not NaN. -/
theorem ite_inf_fin_ne_nan (c : Prop) [Decidable c] (neg : Bool) (m : Nat) (e : Int) :
    (if c then F64.inf neg else F64.fin neg m e) ≠ .nan := by
  split <;> simp

/-- Rounding never yields NaN. -/
theorem round_ne_nan (neg : Bool) (a b : Nat) : F64.round neg a b ≠ .nan := by
  unfold F64.round
  by_cases ha : a = 0
  · simp [ha]
  · rw [if_neg ha]
    exact ite_inf_fin_ne_nan _ _ _ _

/-- Rounding a dyadic never yields NaN. -/
theorem roundDyadic_ne_nan (neg : Bool) (m : Nat) (e : Int) : F64.roundDyadic neg m e ≠ .nan := by
  unfold F64.roundDyadic
  split <;> exact round_ne_nan _ _ _

/-- The float64 value of the constant 1.8. -/
theorem c1_8_val : c1_8 = .fin false 8106479329266893 (-52) := by decide!

/-- The float64 value of the constant 32. -/
theorem c32_val : c32 = .fin false 4503599627370496 (-47) := by decide!

/-- The float64 value of the constant 273.15. -/
theorem c273_15_val : c273_15 = .fin false 4805305618032230 (-44) := by decide!

/-- A parsed JSON number is finite. -/
theorem toFloat64_fin (n : JNumber) (f : F64) (h : n.toFloat64 = some f) :
    ∃ s m e, f = .fin s m e := by
  unfold JNumber.toFloat64 at h
  split at h
  · simp at h
    exact ⟨_, _, _, h.symm⟩
  · simp at h

/-- Go `==` is reflexive away from NaN. -/
theorem eq_self_of_ne_nan (x : F64) (h : x ≠ .nan) : F64.eq x x = true := by
  cases x with
  | nan => exact absurd rfl h
  | inf s => simp [F64.eq]
  | fin s m e => simp [F64.eq]

/-- Adding a finite value to a value other than NaN does not give NaN. -/
theorem add_fin_ne_nan (x : F64) (s : Bool) (m : Nat) (e : Int) (h : x ≠ .nan) :
    F64.add x (.fin s m e) ≠ .nan := by
  cases x with
  | nan => exact absurd rfl h
  | inf t => simp [F64.add]
  | fin t m₂ e₂ =>
    simp only [F64.add]
    split
    · simp
    · exact roundDyadic_ne_nan _ _ _

/-- The product of two finite values is not NaN. -/
theorem mul_fin_ne_nan (s t : Bool) (m₁ m₂ : Nat) (e₁ e₂ : Int) :
    F64.mul (.fin s m₁ e₁) (.fin t m₂ e₂) ≠ .nan := by
  simp only [F64.mul]
  exact roundDyadic_ne_nan _ _ _

/-- The Fahrenheit conversion of a finite value is not NaN. -/
theorem fahrenheit_ne_nan (s : Bool) (m : Nat) (e : Int) :
    F64.add (F64.mul (.fin s m e) c1_8) c32 ≠ .nan := by
  rw [c1_8_val, c32_val]
  exact add_fin_ne_nan _ _ _ _ (mul_fin_ne_nan _ _ _ _ _ _)

/-- The Kelvin conversion of a finite value is not NaN. -/
theorem kelvin_ne_nan (s : Bool) (m : Nat) (e : Int) :
    F64.add (.fin s m e) c273_15 ≠ .nan := by
  rw [c273_15_val]
  exact add_fin_ne_nan _ _ _ _ (by simp)

/-! ### Gateway paths -/

/-- Gateway, method path. -/
theorem gw_not_post (env : GatewayEnv) (r : ZipRequest) (h : r.method ≠ "POST") :
    handleZipCodeRequest env r = (some (errorResponse "Method not allowed" 405), []) := by
  simp [handleZipCodeRequest, h, httpError_fresh]

/-- Gateway, payload path. -/
theorem gw_bad_payload (env : GatewayEnv) (r : ZipRequest) (e : GoError)
    (h : r.method = "POST") (hdec : decodeZipCodeRequest r.body = .error e) :
    handleZipCodeRequest env r = (some (errorResponse "Invalid request payload" 400), []) := by
  simp [handleZipCodeRequest, h, hdec, httpError_fresh]

/-- Gateway, length path. -/
theorem gw_bad_length (env : GatewayEnv) (r : ZipRequest) (req : ZipCodeRequest)
    (h : r.method = "POST") (hdec : decodeZipCodeRequest r.body = .ok req)
    (hlen : len req.zipCode ≠ 8) :
    handleZipCodeRequest env r = (some (errorResponse "Invalid zipcode" 422), []) := by
  simp [handleZipCodeRequest, h, hdec, hlen, httpError_fresh]

/-- Gateway, forwarding path: the call to service-b is made and its outcome decides the response. -/
theorem gw_forward (env : GatewayEnv) (r : ZipRequest) (req : ZipCodeRequest)
    (h : r.method = "POST") (hdec : decodeZipCodeRequest r.body = .ok req)
    (hlen : len req.zipCode = 8) :
    handleZipCodeRequest env r =
      ((match env.get (forwardURL req.zipCode) with
        | .failed _ => some (errorResponse "Failed to get temperature" 500)
        | .unreadable _ _ => some (errorResponse "Failed to read response body" 500)
        | .response status body =>
          ((ResponseWriter.new.writeHeader status).map
            (fun w1 => body.foldl ResponseWriter.write w1)).map ResponseWriter.finish),
        [.httpGet (forwardURL req.zipCode)]) := by
  simp only [handleZipCodeRequest, h, hdec, hlen]
  cases env.get (forwardURL req.zipCode) <;> simp [httpError_fresh]

/-- Relaying a final status that allows a body reproduces status and body. -/
theorem relay_response (status : Nat) (body : List Chunk) (h1 : 200 ≤ status)
    (h2 : status ≤ 999) (h3 : status ≠ 204) (h4 : status ≠ 304) :
    ((ResponseWriter.new.writeHeader status).map
        (fun w1 => body.foldl ResponseWriter.write w1)).map ResponseWriter.finish
      = some ⟨status, [], body⟩ := by
  have hw : ¬ (status < 100 ∨ 999 < status) := by omega
  have hb : bodyAllowedForStatus status = true := by
    unfold bodyAllowedForStatus
    have : ¬ (100 ≤ status ∧ status ≤ 199) := by omega
    simp [this, h3, h4]
  have hwh : ResponseWriter.new.writeHeader status = some ⟨[], some status, []⟩ := by
    simp [ResponseWriter.writeHeader, ResponseWriter.new, hw]
  rw [hwh]
  simp only [Option.map]
  rw [foldl_write body _ status rfl hb]
  simp [ResponseWriter.finish]

/-- Decoding the object with the single member `cep`. -/
theorem decode_cepBody (code : GoString) : decodeZipCodeRequest (cepBody code) = .ok ⟨code⟩ := by
  have hk : equalFold (utf8 "cep") (utf8 "cep") = true := by decide
  simp [decodeZipCodeRequest, cepBody, decodeStringStruct, storeStringField, hk]

/-- Decoding an object without a `cep` member leaves the zero value. -/
theorem decode_absent (fields : List (GoString × JSON)) (h : FieldAbsent (utf8 "cep") fields) :
    decodeZipCodeRequest (.value (.obj fields)) = .ok ⟨[]⟩ := by
  simp [decodeZipCodeRequest, decodeStringStruct, storeStringField_absent _ _ _ _ h]

/-- The Orchestrator answers with one of four status codes. -/
theorem orch_status (env : OrchEnv) (r : TempRequest) (resp : Response)
    (h : (handleTemperatureRequest env r).1 = some resp) :
    resp.status = 200 ∨ resp.status = 404 ∨ resp.status = 422 ∨ resp.status = 500 := by
  by_cases hlen : len (zipcodeOf r) = 8
  · cases hloc : (getLocation env (zipcodeOf r)).1 with
    | error e =>
      rw [orch_location_error env r e hlen hloc] at h
      simp at h
      subst h
      simp [errorResponse]
    | ok loc =>
      cases htemp : (getTemperature env loc.city).1 with
      | error e =>
        rw [orch_temperature_error env r loc e hlen hloc htemp] at h
        simp at h
        subst h
        simp [errorResponse]
      | ok t =>
        rw [orch_success env r loc t hlen hloc htemp] at h
        simp at h
        subst h
        split <;> simp
  · rw [orch_invalid env r hlen] at h
    simp at h
    subst h
    simp [errorResponse]

/-- In the sample world the code 01001000 resolves to the configured city. -/
theorem sample_location (city : GoString) (weather : Payload) (hcity : city ≠ []) :
    (getLocation (sampleWorld city weather) (zipcodeOf sampleRequest)).1 = .ok ⟨city⟩ := by
  have hz : zipcodeOf sampleRequest = utf8 "01001000" := by decide
  have hk : equalFold (utf8 "localidade") (utf8 "localidade") = true := by decide
  have hk1 : equalFold (utf8 "cep") (utf8 "localidade") = false := by decide
  have hk2 : equalFold (utf8 "uf") (utf8 "localidade") = false := by decide
  rw [hz]
  simp [getLocation, sampleWorld, unmarshalLocation, decodeStringStruct, postalBody,
    storeStringField, hk, hk1, hk2, hcity]

/-- End-to-end example of the specification: code 01001000, city São Paulo, `temp_c` 25.0 yield
status 200, content type application/json and the body with the values 25, 77 and 298.15. -/
theorem sao_paulo_example :
    handleTemperatureRequest
        (sampleWorld (utf8 "São Paulo") (weatherBody ⟨false, 250, -1⟩)) sampleRequest
      = (some ⟨200, [("Content-Type", "application/json")],
          [.jsonLine (utf8 "São Paulo") (F64.ofDecimal false 250 (-1))
            (F64.ofDecimal false 770 (-1)) (F64.ofDecimal false 29815 (-2))]⟩,
          [.getLocation (utf8 "01001000"), .clientDo (locationURL (utf8 "01001000")),
            .getTemperature (utf8 "São Paulo"),
            .clientDo (weatherURL (utf8 "KEY") (utf8 "São Paulo"))]) := by
  decide!

/-- Success path with finite conversions: status 200, content type application/json and the
complete body, whose derived fields are computed from `temp_c`. -/
theorem success_complete_body (env : OrchEnv) (r : TempRequest) (loc : Location)
    (t : Temperature) (hlen : len (zipcodeOf r) = 8)
    (hloc : (getLocation env (zipcodeOf r)).1 = .ok loc)
    (htemp : (getTemperature env loc.city).1 = .ok t)
    (hF : t.tempF.isFinite = true) (hK : t.tempK.isFinite = true) :
    (handleTemperatureRequest env r).1
      = some ⟨200, [("Content-Type", "application/json")],
          [.jsonLine loc.city t.tempC (F64.add (F64.mul t.tempC c1_8) c32)
            (F64.add t.tempC c273_15)]⟩ := by
  obtain ⟨s, fields, cur, n, hdo, hcur, htc, hn, ht⟩ := getTemperature_ok env loc.city t htemp
  obtain ⟨sg, m, e, hfin⟩ := toFloat64_fin n t.tempC hn
  have hC : t.tempC.isFinite = true := by rw [hfin]; rfl
  rw [orch_success env r loc t hlen hloc htemp]
  simp only [hC, hF, hK, Bool.and_self, if_true]
  conv_lhs => rw [ht]

/-! ### Forwarding -/

/-- Cutting at a separator that does not occur leaves the text whole. -/
theorem cut_not_mem (sep : UInt8) : ∀ l : GoString, sep ∉ l → cut sep l = (l, []) := by
  intro l
  induction l with
  | nil => intro _; rfl
  | cons b rest ih =>
    intro h
    have hb : b ≠ sep := fun hb => h (by simp [hb])
    have hr : sep ∉ rest := fun hr => h (by simp [hr])
    simp [cut, hb, ih hr]

/-- Cutting splits at the first separator. -/
theorem cut_append_sep (sep : UInt8) (l₂ : GoString) :
    ∀ l₁ : GoString, sep ∉ l₁ → cut sep (l₁ ++ sep :: l₂) = (l₁, l₂) := by
  intro l₁
  induction l₁ with
  | nil => intro _; simp [cut]
  | cons b rest ih =>
    intro h
    have hb : b ≠ sep := fun hb => h (by simp [hb])
    have hr : sep ∉ rest := fun hr => h (by simp [hr])
    simp [cut, hb, ih hr]

/-- A text without the separator is a single piece. -/
theorem splitOn_not_mem (sep : UInt8) : ∀ l : GoString, sep ∉ l → splitOn sep l = [l] := by
  intro l
  induction l with
  | nil => intro _; rfl
  | cons b rest ih =>
    intro h
    have hb : b ≠ sep := fun hb => h (by simp [hb])
    have hr : sep ∉ rest := fun hr => h (by simp [hr])
    simp [splitOn, hb, ih hr]

/-- Unescaping leaves a text without `%` and `+` unchanged. -/
theorem queryUnescape_plain : ∀ l : GoString, (37 : UInt8) ∉ l → (43 : UInt8) ∉ l →
    queryUnescape l = some l := by
  intro l
  induction l with
  | nil => intro _ _; rfl
  | cons b rest ih =>
    intro h1 h2
    have hb1 : b ≠ 37 := fun hb => h1 (by simp [hb])
    have hb2 : b ≠ 43 := fun hb => h2 (by simp [hb])
    have hr1 : (37 : UInt8) ∉ rest := fun hr => h1 (by simp [hr])
    have hr2 : (43 : UInt8) ∉ rest := fun hr => h2 (by simp [hr])
    unfold queryUnescape
    simp [hb1, hb2, ih hr1 hr2]

/-- Where the forwarding does preserve the code: for a code holding none of the bytes `#`, `%`,
`&`, `+`, `;` the zipcode the Orchestrator extracts from the forwarded URL is the code
itself. -/
theorem forwarded_zipcode_preserved (code : GoString)
    (h35 : (35 : UInt8) ∉ code) (h37 : (37 : UInt8) ∉ code) (h38 : (38 : UInt8) ∉ code)
    (h43 : (43 : UInt8) ∉ code) (h59 : (59 : UInt8) ∉ code) :
    zipcodeOf ⟨rawQueryOf (forwardURL code)⟩ = code := by
  have hP : utf8 "http://service-b:8081/temperature?zipcode="
      = utf8 "http://service-b:8081/temperature" ++ 63 :: (utf8 "zipcode" ++ [61]) := by decide
  have hfrag : (35 : UInt8) ∉ forwardURL code := by
    have : (35 : UInt8) ∉ utf8 "http://service-b:8081/temperature?zipcode=" := by decide
    simp [forwardURL, this, h35]
  have hq : rawQueryOf (forwardURL code) = utf8 "zipcode" ++ 61 :: code := by
    unfold rawQueryOf
    rw [cut_not_mem 35 _ hfrag]
    simp only [forwardURL]
    rw [hP, List.append_assoc, List.cons_append, cut_append_sep 63 _ _ (by decide)]
    simp
  have hamp : (38 : UInt8) ∉ utf8 "zipcode" ++ 61 :: code := by
    have : (38 : UInt8) ∉ utf8 "zipcode" := by decide
    simp [this, h38]
  have hsemi : (59 : UInt8) ∉ utf8 "zipcode" ++ 61 :: code := by
    have : (59 : UInt8) ∉ utf8 "zipcode" := by decide
    simp [this, h59]
  have hpair : parsePair (utf8 "zipcode" ++ 61 :: code) = some (utf8 "zipcode", code) := by
    unfold parsePair
    have hc : (utf8 "zipcode" ++ 61 :: code).contains 59 = false := by
      simpa using hsemi
    have hne : utf8 "zipcode" ++ 61 :: code ≠ [] := by simp
    rw [hc]
    simp only [Bool.false_eq_true, if_false, hne]
    rw [cut_append_sep 61 code _ (by decide)]
    have hk : queryUnescape (utf8 "zipcode") = some (utf8 "zipcode") := by decide
    simp [hk, queryUnescape_plain code h37 h43]
  simp [zipcodeOf, hq, parseQuery, splitOn_not_mem 38 _ hamp, hpair, valuesGet]

/-! ### Characters and bytes -/

/-- Every character takes at least one byte. -/
theorem encodeChar_length_pos (c : Char) : 1 ≤ (String.utf8EncodeChar c).length := by
  unfold String.utf8EncodeChar
  simp only
  split
  · simp
  · split
    · simp
    · split <;> simp

/-- An ASCII character takes exactly one byte. -/
theorem encodeChar_length_ascii (c : Char) (h : isASCII c = true) :
    (String.utf8EncodeChar c).length = 1 := by
  have hc : c.val ≤ 0x7f := by simpa [isASCII] using h
  unfold String.utf8EncodeChar
  simp [hc]

/-- A character outside ASCII takes at least two bytes. -/
theorem encodeChar_length_nonascii (c : Char) (h : isASCII c = false) :
    2 ≤ (String.utf8EncodeChar c).length := by
  have hc : ¬ c.val ≤ 0x7f := by simpa [isASCII] using h
  unfold String.utf8EncodeChar
  simp only [hc, if_false]
  split
  · simp
  · split <;> simp

/-- A text has at least as many bytes as characters. -/
theorem chars_le_bytes : ∀ l : List Char, l.length ≤ (l.flatMap String.utf8EncodeChar).length := by
  intro l
  induction l with
  | nil => simp
  | cons c rest ih =>
    have := encodeChar_length_pos c
    simp only [List.flatMap_cons, List.length_append, List.length_cons]
    omega

/-- A text with a character outside ASCII has more bytes than characters. -/
theorem chars_lt_bytes : ∀ l : List Char, (∃ c ∈ l, isASCII c = false) →
    l.length < (l.flatMap String.utf8EncodeChar).length := by
  intro l
  induction l with
  | nil => rintro ⟨c, hc, _⟩; simp at hc
  | cons d rest ih =>
    rintro ⟨c, hc, hna⟩
    simp only [List.flatMap_cons, List.length_append, List.length_cons]
    rcases List.mem_cons.mp hc with rfl | hrest
    · have h1 := encodeChar_length_nonascii c hna
      have h2 := chars_le_bytes rest
      omega
    · have h1 := encodeChar_length_pos d
      have h2 := ih ⟨c, hrest, hna⟩
      omega

/-- A text of ASCII characters has as many bytes as characters. -/
theorem chars_eq_bytes : ∀ l : List Char, (∀ c ∈ l, isASCII c = true) →
    (l.flatMap String.utf8EncodeChar).length = l.length := by
  intro l
  induction l with
  | nil => intro _; simp
  | cons d rest ih =>
    intro h
    have h1 := encodeChar_length_ascii d (h d (by simp))
    have h2 := ih (fun c hc => h c (by simp [hc]))
    simp only [List.flatMap_cons, List.length_append, List.length_cons]
    omega

/-- Go `len` exceeds the number of characters as soon as one character is outside ASCII. -/
theorem len_utf8_nonascii (s : String) (h : ∃ c ∈ s.toList, isASCII c = false) :
    charCount s < len (utf8 s) := by
  have := chars_lt_bytes s.toList h
  simpa [charCount, len, utf8] using this

/-- Go `len` is the number of characters for an ASCII text. -/
theorem len_utf8_ascii (s : String) (h : ∀ c ∈ s.toList, isASCII c = true) :
    len (utf8 s) = charCount s := by
  have := chars_eq_bytes s.toList h
  simpa [charCount, len, utf8] using this

/-! ## The claims -/

/-- C1: for every postal code whose length (Go `len`) is not 8, `handleZipCodeRequest`, given a
POST whose body decodes to that code, and `handleTemperatureRequest`, given a request whose
`zipcode` parameter is that code, both answer 422 with the plain-text message "Invalid
zipcode", and neither makes any call: the Gateway does not call the Orchestrator, the
Orchestrator calls neither `getLocation` nor `getTemperature` (the list of calls is empty). -/
theorem C1_wrong_length_rejected (code : GoString) (hlen : len code ≠ 8) :
    (∀ (env : GatewayEnv) (r : ZipRequest), r.method = "POST" →
        decodeZipCodeRequest r.body = .ok ⟨code⟩ →
        handleZipCodeRequest env r = (some (errorResponse "Invalid zipcode" 422), [])) ∧
    (∀ (env : OrchEnv) (r : TempRequest), zipcodeOf r = code →
        handleTemperatureRequest env r = (some (errorResponse "Invalid zipcode" 422), [])) := by
  constructor
  · intro env r hpost hdec
    exact gw_bad_length env r ⟨code⟩ hpost hdec hlen
  · intro env r hz
    exact orch_invalid env r (by rw [hz]; exact hlen)

/-- Witness for C1: the code `123` of the specification, at both handlers. -/
theorem C1_wrong_length_rejected_witness :
    len (utf8 "123") ≠ 8 ∧
    handleZipCodeRequest gatewayDown ⟨"POST", cepBody (utf8 "123")⟩
      = (some (errorResponse "Invalid zipcode" 422), []) ∧
    handleTemperatureRequest orchDown ⟨utf8 "zipcode=123"⟩
      = (some (errorResponse "Invalid zipcode" 422), []) :=
  ⟨by decide,
    (C1_wrong_length_rejected (utf8 "123") (by decide)).1 gatewayDown
      ⟨"POST", cepBody (utf8 "123")⟩ rfl (decode_cepBody _),
    (C1_wrong_length_rejected (utf8 "123") (by decide)).2 orchDown ⟨utf8 "zipcode=123"⟩
      (by decide)⟩

/-- C2: for every request with a zipcode of length 8 for which `getLocation` fails, whatever the
cause (it returns an error, or one of the listed causes holds: the request cannot be built
or sent, the body cannot be read or is not JSON, the `localidade` member is absent or
empty), `handleTemperatureRequest` answers 404 "Can not find zipcode", `getTemperature` is
never invoked and the only outbound call is the postal lookup. -/
theorem C2_location_failure_not_found (env : OrchEnv) (r : TempRequest)
    (hlen : len (zipcodeOf r) = 8)
    (hfail : (∃ e, (getLocation env (zipcodeOf r)).1 = .error e) ∨
      LocationLookupFails env (zipcodeOf r)) :
    (handleTemperatureRequest env r).1 = some (errorResponse "Can not find zipcode" 404) ∧
    (∀ city, Event.getTemperature city ∉ (handleTemperatureRequest env r).2) ∧
    (∀ url, Event.clientDo url ∈ (handleTemperatureRequest env r).2 →
      url = locationURL (zipcodeOf r)) := by
  have hex : ∃ e, (getLocation env (zipcodeOf r)).1 = .error e := by
    rcases hfail with h | h
    · exact h
    · exact getLocation_fails_of_cause env _ h
  obtain ⟨e, he⟩ := hex
  rw [orch_location_error env r e hlen he]
  refine ⟨rfl, ?_, ?_⟩
  · intro city hmem
    simp only [List.mem_cons] at hmem
    rcases hmem with h | h
    · cases h
    · have := getLocation_calls env _ _ h
      cases this
  · intro url hmem
    simp only [List.mem_cons] at hmem
    rcases hmem with h | h
    · cases h
    · have := getLocation_calls env _ _ h
      cases this
      rfl

/-- Witness for C2: the code `99999999`, for which the postal lookup answers an object without
`localidade`. -/
theorem C2_location_failure_not_found_witness :
    len (zipcodeOf ⟨utf8 "zipcode=99999999"⟩) = 8 ∧
    FieldAbsent (utf8 "localidade") [(utf8 "erro", JSON.bool true)] ∧
    (handleTemperatureRequest (sampleWorld (utf8 "São Paulo") (weatherBody ⟨false, 250, -1⟩))
      ⟨utf8 "zipcode=99999999"⟩).1 = some (errorResponse "Can not find zipcode" 404) :=
  have habs : FieldAbsent (utf8 "localidade") [(utf8 "erro", JSON.bool true)] := by
    intro kv hkv
    simp only [List.mem_singleton] at hkv
    subst hkv
    decide
  ⟨by decide, habs,
    (C2_location_failure_not_found (sampleWorld (utf8 "São Paulo") (weatherBody ⟨false, 250, -1⟩))
      ⟨utf8 "zipcode=99999999"⟩ (by decide)
      (Or.inr (Or.inr (Or.inr (Or.inr (Or.inr
        ⟨200, [(utf8 "erro", JSON.bool true)], by rfl, Or.inl habs⟩)))))).1⟩

/-- C3: for every request with a zipcode of length 8 for which `getLocation` succeeds and the
weather lookup fails (`getTemperature` returns an error, or one of the listed causes holds:
the request cannot be built or sent, the body cannot be read, the body is not a JSON object,
`current` is missing or not an object, `current.temp_c` is missing or not a number),
`handleTemperatureRequest` answers 500 "Failed to get temperature"; and for every world and
city `getTemperature` returns either an error or a reading (its type assertions are the
checked ones, so no outcome other than these two exists). -/
theorem C3_weather_failure_internal_error (env : OrchEnv) (r : TempRequest) (loc : Location)
    (hlen : len (zipcodeOf r) = 8) (hloc : (getLocation env (zipcodeOf r)).1 = .ok loc)
    (hfail : (∃ e, (getTemperature env loc.city).1 = .error e) ∨
      WeatherLookupFails env loc.city) :
    (handleTemperatureRequest env r).1 = some (errorResponse "Failed to get temperature" 500) ∧
    (∀ (env2 : OrchEnv) (city : GoString),
      (∃ e, (getTemperature env2 city).1 = .error e) ∨
      (∃ t, (getTemperature env2 city).1 = .ok t)) := by
  have hex : ∃ e, (getTemperature env loc.city).1 = .error e := by
    rcases hfail with h | h
    · exact h
    · exact getTemperature_fails_of_cause env _ h
  obtain ⟨e, he⟩ := hex
  rw [orch_temperature_error env r loc e hlen hloc he]
  exact ⟨rfl, getTemperature_total⟩

/-- Witness for C3: the city is found and the weather lookup answers an error object without
`current`. -/
theorem C3_weather_failure_internal_error_witness :
    len (zipcodeOf sampleRequest) = 8 ∧
    (∀ cur, mapIndex (utf8 "current")
      [(utf8 "error", JSON.obj [(utf8 "code", JSON.num ⟨false, 2006, 0⟩)])] ≠ some (.obj cur)) ∧
    (handleTemperatureRequest (sampleWorld (utf8 "São Paulo") weatherRefusal) sampleRequest).1
      = some (errorResponse "Failed to get temperature" 500) :=
  have hcur : ∀ cur, mapIndex (utf8 "current")
      [(utf8 "error", JSON.obj [(utf8 "code", JSON.num ⟨false, 2006, 0⟩)])] ≠ some (.obj cur) := by
    intro cur h
    have hne : utf8 "error" ≠ utf8 "current" := by decide
    simp [mapIndex, hne] at h
  ⟨by decide, hcur,
    (C3_weather_failure_internal_error (sampleWorld (utf8 "São Paulo") weatherRefusal)
      sampleRequest ⟨utf8 "São Paulo"⟩ (by decide) (sample_location _ _ (by decide))
      (Or.inr (Or.inr (Or.inr (Or.inr (Or.inr (Or.inl
        ⟨200, [(utf8 "error", JSON.obj [(utf8 "code", JSON.num ⟨false, 2006, 0⟩)])],
          by rfl, hcur⟩))))))).1⟩

/-- C4, at the failing input: code `01001000`, city São Paulo, and a weather answer whose
`current.temp_c` is the number 1e308.  The number is a finite float64, the Fahrenheit
conversion overflows to +Inf, the JSON encoder refuses the value and writes nothing, its
error is dropped, and the handler answers status 200 with content type application/json and
an empty body. -/
theorem C4_overflow_empty_body :
    len (zipcodeOf sampleRequest) = 8 ∧
    F64.ofDecimal false 1 308 = .fin false 5010420900022432 971 ∧
    F64.add (F64.mul (F64.ofDecimal false 1 308) c1_8) c32 = .inf false ∧
    handleTemperatureRequest
        (sampleWorld (utf8 "São Paulo") (weatherBody ⟨false, 1, 308⟩)) sampleRequest
      = (some ⟨200, [("Content-Type", "application/json")], []⟩,
          [.getLocation (utf8 "01001000"), .clientDo (locationURL (utf8 "01001000")),
            .getTemperature (utf8 "São Paulo"),
            .clientDo (weatherURL (utf8 "KEY") (utf8 "São Paulo"))]) := by
  refine ⟨by decide, by decide!, by decide!, by decide!⟩

/-- C5: every reading returned by a successful `getTemperature` satisfies, with Go float64
arithmetic and Go `==`, `temp_f == temp_c*1.8+32` and `temp_k == temp_c+273.15` (the fields
are those very values), its city is the input city, and its `temp_c` is the float64 value of
the number found at `current.temp_c` in the weather answer; for `temp_c = 25.0` the
conversions are the float64 values 77.0 and 298.15. -/
theorem C5_unit_conversion (env : OrchEnv) (city : GoString) (t : Temperature)
    (h : (getTemperature env city).1 = .ok t) :
    F64.eq t.tempF (F64.add (F64.mul t.tempC c1_8) c32) = true ∧
    F64.eq t.tempK (F64.add t.tempC c273_15) = true ∧
    t.tempF = F64.add (F64.mul t.tempC c1_8) c32 ∧
    t.tempK = F64.add t.tempC c273_15 ∧
    t.city = city ∧
    (∃ s fields cur n,
      env.clientDo (weatherURL env.apiKey city) = .response s (.value (.obj fields)) ∧
      mapIndex (utf8 "current") fields = some (.obj cur) ∧
      mapIndex (utf8 "temp_c") cur = some (.num n) ∧ n.toFloat64 = some t.tempC) ∧
    (F64.add (F64.mul (F64.ofDecimal false 250 (-1)) c1_8) c32 = F64.ofDecimal false 770 (-1) ∧
      F64.add (F64.ofDecimal false 250 (-1)) c273_15 = F64.ofDecimal false 29815 (-2)) := by
  obtain ⟨s, fields, cur, n, hdo, hcur, htc, hn, ht⟩ := getTemperature_ok env city t h
  obtain ⟨sg, m, e, hfin⟩ := toFloat64_fin n t.tempC hn
  have hF : t.tempF = F64.add (F64.mul t.tempC c1_8) c32 := by
    conv_lhs => rw [ht]
  have hK : t.tempK = F64.add t.tempC c273_15 := by
    conv_lhs => rw [ht]
  have hC : t.city = city := by
    conv_lhs => rw [ht]
  refine ⟨?_, ?_, hF, hK, hC, ⟨s, fields, cur, n, hdo, hcur, htc, hn⟩, by decide!⟩
  · rw [hF]
    apply eq_self_of_ne_nan
    rw [hfin]
    exact fahrenheit_ne_nan _ _ _
  · rw [hK]
    apply eq_self_of_ne_nan
    rw [hfin]
    exact kelvin_ne_nan _ _ _

/-- Witness for C5: the reading for a weather answer with `current.temp_c = 25.0`. -/
theorem C5_unit_conversion_witness :
    ∃ t, (getTemperature (sampleWorld (utf8 "São Paulo") (weatherBody ⟨false, 250, -1⟩))
        (utf8 "São Paulo")).1 = .ok t ∧
      F64.eq t.tempF (F64.add (F64.mul t.tempC c1_8) c32) = true ∧
      t.tempC = F64.ofDecimal false 250 (-1) :=
  ⟨⟨utf8 "São Paulo", F64.ofDecimal false 250 (-1), F64.ofDecimal false 770 (-1),
      F64.ofDecimal false 29815 (-2)⟩, by decide!,
    (C5_unit_conversion (sampleWorld (utf8 "São Paulo") (weatherBody ⟨false, 250, -1⟩))
      (utf8 "São Paulo") ⟨utf8 "São Paulo", F64.ofDecimal false 250 (-1),
        F64.ofDecimal false 770 (-1), F64.ofDecimal false 29815 (-2)⟩ (by decide!)).1, rfl⟩

/-- C6: for every request the Gateway forwards (POST, decodable body, code of length 8) and
every response the Orchestrator handler can produce (on any of its paths, so with status
200, 404, 422 or 500), if that response is what the forwarded call returns, then
`handleZipCodeRequest` answers with exactly its status and exactly its body. -/
theorem C6_relay_fidelity (env : GatewayEnv) (r : ZipRequest) (req : ZipCodeRequest)
    (orchEnv : OrchEnv) (orchReq : TempRequest) (resp : Response)
    (hpost : r.method = "POST") (hdec : decodeZipCodeRequest r.body = .ok req)
    (hlen : len req.zipCode = 8)
    (horch : (handleTemperatureRequest orchEnv orchReq).1 = some resp)
    (hget : env.get (forwardURL req.zipCode) = .response resp.status resp.body) :
    (resp.status = 200 ∨ resp.status = 404 ∨ resp.status = 422 ∨ resp.status = 500) ∧
    ∃ out, (handleZipCodeRequest env r).1 = some out ∧ out.status = resp.status ∧
      out.body = resp.body := by
  have hst := orch_status orchEnv orchReq resp horch
  refine ⟨hst, ⟨resp.status, [], resp.body⟩, ?_, rfl, rfl⟩
  rw [gw_forward env r req hpost hdec hlen, hget]
  simp only
  apply relay_response <;> omega

/-- Witness for C6: the code `99999999` of the specification; the Orchestrator answers 404 and
the Gateway relays status and body. -/
theorem C6_relay_fidelity_witness :
    (handleTemperatureRequest (sampleWorld (utf8 "São Paulo") (weatherBody ⟨false, 250, -1⟩))
      ⟨rawQueryOf (forwardURL (utf8 "99999999"))⟩).1
      = some (errorResponse "Can not find zipcode" 404) ∧
    ∃ out, (handleZipCodeRequest
        (gatewayAnswer 404 [.bytes (utf8 "Can not find zipcode" ++ [10])])
        ⟨"POST", cepBody (utf8 "99999999")⟩).1 = some out ∧
      out.status = 404 ∧ out.body = [.bytes (utf8 "Can not find zipcode" ++ [10])] :=
  ⟨by decide!,
    (C6_relay_fidelity (gatewayAnswer 404 [.bytes (utf8 "Can not find zipcode" ++ [10])])
      ⟨"POST", cepBody (utf8 "99999999")⟩ ⟨utf8 "99999999"⟩
      (sampleWorld (utf8 "São Paulo") (weatherBody ⟨false, 250, -1⟩))
      ⟨rawQueryOf (forwardURL (utf8 "99999999"))⟩
      (errorResponse "Can not find zipcode" 404) rfl (decode_cepBody _) (by decide)
      (by decide!) rfl).2⟩

/-- C7: `handleZipCodeRequest` maps validation failures in a fixed order. A request whose method
is not POST gets 405, whatever its body; a POST whose body does not decode gets 400; a POST
whose body decodes to a code of length other than 8 gets 422, also when the body is an
object without a `cep` member; in all cases the response is the plain-text error response
(content type text/plain, the message and a newline) and no call is made. -/
theorem C7_validation_precedence (env : GatewayEnv) (r : ZipRequest) :
    (r.method ≠ "POST" →
      handleZipCodeRequest env r = (some (errorResponse "Method not allowed" 405), [])) ∧
    (r.method = "POST" → (∃ e, decodeZipCodeRequest r.body = .error e) →
      handleZipCodeRequest env r = (some (errorResponse "Invalid request payload" 400), [])) ∧
    (r.method = "POST" → ∀ req, decodeZipCodeRequest r.body = .ok req → len req.zipCode ≠ 8 →
      handleZipCodeRequest env r = (some (errorResponse "Invalid zipcode" 422), [])) ∧
    (r.method = "POST" → ∀ fields, r.body = .value (.obj fields) →
      FieldAbsent (utf8 "cep") fields →
      handleZipCodeRequest env r = (some (errorResponse "Invalid zipcode" 422), [])) ∧
    (∀ msg code, (errorResponse msg code).header
      = [("Content-Type", "text/plain; charset=utf-8"), ("X-Content-Type-Options", "nosniff")] ∧
      (errorResponse msg code).body = [.bytes (utf8 msg ++ [10])]) := by
  refine ⟨gw_not_post env r, ?_, ?_, ?_, fun _ _ => ⟨rfl, rfl⟩⟩
  · rintro hpost ⟨e, he⟩
    exact gw_bad_payload env r e hpost he
  · intro hpost req hdec hlen
    exact gw_bad_length env r req hpost hdec hlen
  · intro hpost fields hbody habs
    have hdec : decodeZipCodeRequest r.body = .ok ⟨[]⟩ := by
      rw [hbody]
      exact decode_absent fields habs
    exact gw_bad_length env r ⟨[]⟩ hpost hdec (by decide)

/-- Witness for C7: a GET with a valid body, a POST with an unreadable body, a POST with the
code `123`, a POST with an empty object. -/
theorem C7_validation_precedence_witness :
    handleZipCodeRequest (gatewayAnswer 200 []) ⟨"GET", cepBody (utf8 "01001000")⟩
      = (some (errorResponse "Method not allowed" 405), []) ∧
    handleZipCodeRequest (gatewayAnswer 200 []) ⟨"POST", .malformed "unexpected EOF"⟩
      = (some (errorResponse "Invalid request payload" 400), []) ∧
    handleZipCodeRequest (gatewayAnswer 200 []) ⟨"POST", cepBody (utf8 "123")⟩
      = (some (errorResponse "Invalid zipcode" 422), []) ∧
    handleZipCodeRequest (gatewayAnswer 200 []) ⟨"POST", .value (.obj [])⟩
      = (some (errorResponse "Invalid zipcode" 422), []) :=
  ⟨(C7_validation_precedence (gatewayAnswer 200 []) ⟨"GET", cepBody (utf8 "01001000")⟩).1
      (by decide),
    (C7_validation_precedence (gatewayAnswer 200 []) ⟨"POST", .malformed "unexpected EOF"⟩).2.1
      rfl ⟨.jsonSyntax "unexpected EOF", rfl⟩,
    (C7_validation_precedence (gatewayAnswer 200 []) ⟨"POST", cepBody (utf8 "123")⟩).2.2.1
      rfl ⟨utf8 "123"⟩ (decode_cepBody _) (by decide),
    (C7_validation_precedence (gatewayAnswer 200 []) ⟨"POST", .value (.obj [])⟩).2.2.2.1
      rfl [] rfl (fun _ h => nomatch h)⟩

/-- C8, at the failing input: the code `1234&a=b` has length 8, so the Gateway accepts it and
calls the URL built by concatenation; the raw query of that URL is `zipcode=1234&a=b`, from
which the Orchestrator extracts the zipcode `1234`, and it answers 422. -/
theorem C8_forwarded_code_truncated :
    len (utf8 "1234&a=b") = 8 ∧
    (∀ env : GatewayEnv,
      (handleZipCodeRequest env ⟨"POST", cepBody (utf8 "1234&a=b")⟩).2
        = [.httpGet (forwardURL (utf8 "1234&a=b"))]) ∧
    rawQueryOf (forwardURL (utf8 "1234&a=b")) = utf8 "zipcode=1234&a=b" ∧
    zipcodeOf ⟨rawQueryOf (forwardURL (utf8 "1234&a=b"))⟩ = utf8 "1234" ∧
    (∀ env : OrchEnv,
      handleTemperatureRequest env ⟨rawQueryOf (forwardURL (utf8 "1234&a=b"))⟩
        = (some (errorResponse "Invalid zipcode" 422), [])) := by
  refine ⟨by decide, ?_, by decide, by decide, ?_⟩
  · intro env
    rw [gw_forward env ⟨"POST", cepBody (utf8 "1234&a=b")⟩ ⟨utf8 "1234&a=b"⟩ rfl
      (decode_cepBody _) (by decide)]
  · intro env
    exact orch_invalid env _ (by decide)

/-- Counterexample to C9 as stated: the code `çççççççç` has 8 characters but 16 bytes, and both
handlers answer it with 422 "Invalid zipcode". -/
theorem C9_counterexample :
    charCount "çççççççç" = 8 ∧
    len (utf8 "çççççççç") = 16 ∧
    (∀ env : GatewayEnv,
      handleZipCodeRequest env ⟨"POST", cepBody (utf8 "çççççççç")⟩
        = (some (errorResponse "Invalid zipcode" 422), [])) ∧
    zipcodeOf ⟨utf8 "zipcode=%C3%A7%C3%A7%C3%A7%C3%A7%C3%A7%C3%A7%C3%A7%C3%A7"⟩
      = utf8 "çççççççç" ∧
    (∀ env : OrchEnv,
      handleTemperatureRequest env
          ⟨utf8 "zipcode=%C3%A7%C3%A7%C3%A7%C3%A7%C3%A7%C3%A7%C3%A7%C3%A7"⟩
        = (some (errorResponse "Invalid zipcode" 422), [])) := by
  refine ⟨by decide, by decide, ?_, by decide, ?_⟩
  · intro env
    exact gw_bad_length env _ ⟨utf8 "çççççççç"⟩ rfl (decode_cepBody _) (by decide)
  · intro env
    exact orch_invalid env _ (by decide)

/-- C9, amended: the only validation of the code is its length in bytes (Go `len`).  Every code
a handler validates (the `cep` string as decoded from the body at the Gateway, the `zipcode`
parameter as extracted from the query at the Orchestrator) whose length is exactly 8 bytes,
whatever those bytes are, passes the length validation: `handleZipCodeRequest` goes on to
call the Orchestrator with it, and `handleTemperatureRequest` goes on to call `getLocation`
with it and never answers 422.  For a code of exactly 8 characters this means: if one of its
characters is outside ASCII, the code is longer than 8 bytes and both handlers answer it
with 422 "Invalid zipcode" and make no call; if all its characters are ASCII, whether digits
or not, it is 8 bytes long and passes. -/
theorem C9_eight_bytes_pass_validation :
    (∀ code : GoString, len code = 8 →
      (∀ (env : GatewayEnv) (r : ZipRequest), r.method = "POST" →
        decodeZipCodeRequest r.body = .ok ⟨code⟩ →
        (handleZipCodeRequest env r).2 = [.httpGet (forwardURL code)]) ∧
      (∀ (env : OrchEnv) (r : TempRequest), zipcodeOf r = code →
        (∃ rest, (handleTemperatureRequest env r).2 = .getLocation code :: rest) ∧
        ∀ resp, (handleTemperatureRequest env r).1 = some resp → resp.status ≠ 422)) ∧
    (∀ s : String, charCount s = 8 → (∃ c ∈ s.toList, isASCII c = false) →
      8 < len (utf8 s) ∧
      (∀ (env : GatewayEnv) (r : ZipRequest), r.method = "POST" →
        decodeZipCodeRequest r.body = .ok ⟨utf8 s⟩ →
        handleZipCodeRequest env r = (some (errorResponse "Invalid zipcode" 422), [])) ∧
      (∀ (env : OrchEnv) (r : TempRequest), zipcodeOf r = utf8 s →
        handleTemperatureRequest env r = (some (errorResponse "Invalid zipcode" 422), []))) ∧
    (∀ s : String, charCount s = 8 → (∀ c ∈ s.toList, isASCII c = true) →
      len (utf8 s) = 8) := by
  refine ⟨?_, ?_, ?_⟩
  · intro code hlen
    constructor
    · intro env r hpost hdec
      rw [gw_forward env r ⟨code⟩ hpost hdec hlen]
    · intro env r hz
      have hl : len (zipcodeOf r) = 8 := by rw [hz]; exact hlen
      cases hloc : (getLocation env (zipcodeOf r)).1 with
      | error e =>
        rw [orch_location_error env r e hl hloc, hz]
        refine ⟨⟨_, rfl⟩, ?_⟩
        intro resp h
        simp at h
        subst h
        simp [errorResponse]
      | ok loc =>
        cases htemp : (getTemperature env loc.city).1 with
        | error e =>
          rw [orch_temperature_error env r loc e hl hloc htemp, hz]
          refine ⟨⟨_, rfl⟩, ?_⟩
          intro resp h
          simp at h
          subst h
          simp [errorResponse]
        | ok t =>
          rw [orch_success env r loc t hl hloc htemp, hz]
          refine ⟨⟨_, rfl⟩, ?_⟩
          intro resp h
          simp at h
          subst h
          split <;> simp
  · intro s hs hna
    have hlt : 8 < len (utf8 s) := by
      have := len_utf8_nonascii s hna
      omega
    refine ⟨hlt, ?_, ?_⟩
    · intro env r hpost hdec
      exact gw_bad_length env r ⟨utf8 s⟩ hpost hdec (by show len (utf8 s) ≠ 8; omega)
    · intro env r hz
      exact orch_invalid env r (by rw [hz]; omega)
  · intro s hs hascii
    rw [len_utf8_ascii s hascii, hs]

/-- Witness for the amended C9: a code of 8 bytes that is neither digits only nor ASCII only
passes at both handlers; the 8-character code `0100100é` has 9 bytes and is answered 422 by
both; the 8-character ASCII code `AB-12_cd` has 8 bytes. -/
theorem C9_eight_bytes_pass_validation_witness :
    (len (utf8 "ab-çd12") = 8 ∧ charCount "ab-çd12" = 7 ∧
      (handleZipCodeRequest gatewayDown ⟨"POST", cepBody (utf8 "ab-çd12")⟩).2
        = [.httpGet (forwardURL (utf8 "ab-çd12"))] ∧
      ∃ rest, (handleTemperatureRequest orchDown ⟨utf8 "zipcode=ab-%C3%A7d12"⟩).2
        = .getLocation (utf8 "ab-çd12") :: rest) ∧
    (charCount "0100100é" = 8 ∧ len (utf8 "0100100é") = 9 ∧
      handleZipCodeRequest gatewayDown ⟨"POST", cepBody (utf8 "0100100é")⟩
        = (some (errorResponse "Invalid zipcode" 422), []) ∧
      handleTemperatureRequest orchDown ⟨utf8 "zipcode=0100100%C3%A9"⟩
        = (some (errorResponse "Invalid zipcode" 422), [])) ∧
    (charCount "AB-12_cd" = 8 ∧ len (utf8 "AB-12_cd") = 8) :=
  ⟨⟨by decide, by decide,
      (C9_eight_bytes_pass_validation.1 (utf8 "ab-çd12") (by decide)).1 gatewayDown
        ⟨"POST", cepBody (utf8 "ab-çd12")⟩ rfl (decode_cepBody _),
      ((C9_eight_bytes_pass_validation.1 (utf8 "ab-çd12") (by decide)).2 orchDown
        ⟨utf8 "zipcode=ab-%C3%A7d12"⟩ (by decide)).1⟩,
    ⟨by decide, by decide,
      (C9_eight_bytes_pass_validation.2.1 "0100100é" (by decide)
        ⟨'é', by decide, by decide⟩).2.1 gatewayDown
        ⟨"POST", cepBody (utf8 "0100100é")⟩ rfl (decode_cepBody _),
      (C9_eight_bytes_pass_validation.2.1 "0100100é" (by decide)
        ⟨'é', by decide, by decide⟩).2.2 orchDown
        ⟨utf8 "zipcode=0100100%C3%A9"⟩ (by decide)⟩,
    ⟨by decide, C9_eight_bytes_pass_validation.2.2 "AB-12_cd" (by decide) (by decide)⟩⟩

/-- C10: the cause of a failure does not reach the caller. Any two runs of
`handleTemperatureRequest` that fail at the same stage (validation, location, temperature)
give the same response, whatever the worlds, requests and errors; and any two runs of
`handleZipCodeRequest` in which the outbound call `http.Get` fails give the same response,
whatever the errors (and so do any two runs in which reading the answer fails). -/
theorem C10_cause_not_exposed :
    (∀ (env₁ env₂ : OrchEnv) (r₁ r₂ : TempRequest),
      len (zipcodeOf r₁) ≠ 8 → len (zipcodeOf r₂) ≠ 8 →
      (handleTemperatureRequest env₁ r₁).1 = (handleTemperatureRequest env₂ r₂).1) ∧
    (∀ (env₁ env₂ : OrchEnv) (r₁ r₂ : TempRequest) (e₁ e₂ : GoError),
      len (zipcodeOf r₁) = 8 → len (zipcodeOf r₂) = 8 →
      (getLocation env₁ (zipcodeOf r₁)).1 = .error e₁ →
      (getLocation env₂ (zipcodeOf r₂)).1 = .error e₂ →
      (handleTemperatureRequest env₁ r₁).1 = (handleTemperatureRequest env₂ r₂).1) ∧
    (∀ (env₁ env₂ : OrchEnv) (r₁ r₂ : TempRequest) (loc₁ loc₂ : Location) (e₁ e₂ : GoError),
      len (zipcodeOf r₁) = 8 → len (zipcodeOf r₂) = 8 →
      (getLocation env₁ (zipcodeOf r₁)).1 = .ok loc₁ →
      (getLocation env₂ (zipcodeOf r₂)).1 = .ok loc₂ →
      (getTemperature env₁ loc₁.city).1 = .error e₁ →
      (getTemperature env₂ loc₂.city).1 = .error e₂ →
      (handleTemperatureRequest env₁ r₁).1 = (handleTemperatureRequest env₂ r₂).1) ∧
    (∀ (env₁ env₂ : GatewayEnv) (r₁ r₂ : ZipRequest) (req₁ req₂ : ZipCodeRequest)
      (e₁ e₂ : GoError),
      r₁.method = "POST" → r₂.method = "POST" →
      decodeZipCodeRequest r₁.body = .ok req₁ → decodeZipCodeRequest r₂.body = .ok req₂ →
      len req₁.zipCode = 8 → len req₂.zipCode = 8 →
      env₁.get (forwardURL req₁.zipCode) = .failed e₁ →
      env₂.get (forwardURL req₂.zipCode) = .failed e₂ →
      (handleZipCodeRequest env₁ r₁).1 = (handleZipCodeRequest env₂ r₂).1) ∧
    (∀ (env₁ env₂ : GatewayEnv) (r₁ r₂ : ZipRequest) (req₁ req₂ : ZipCodeRequest)
      (s₁ s₂ : Nat) (e₁ e₂ : GoError),
      r₁.method = "POST" → r₂.method = "POST" →
      decodeZipCodeRequest r₁.body = .ok req₁ → decodeZipCodeRequest r₂.body = .ok req₂ →
      len req₁.zipCode = 8 → len req₂.zipCode = 8 →
      env₁.get (forwardURL req₁.zipCode) = .unreadable s₁ e₁ →
      env₂.get (forwardURL req₂.zipCode) = .unreadable s₂ e₂ →
      (handleZipCodeRequest env₁ r₁).1 = (handleZipCodeRequest env₂ r₂).1) := by
  refine ⟨?_, ?_, ?_, ?_, ?_⟩
  · intro env₁ env₂ r₁ r₂ h₁ h₂
    rw [orch_invalid env₁ r₁ h₁, orch_invalid env₂ r₂ h₂]
  · intro env₁ env₂ r₁ r₂ e₁ e₂ h₁ h₂ hl₁ hl₂
    rw [orch_location_error env₁ r₁ e₁ h₁ hl₁, orch_location_error env₂ r₂ e₂ h₂ hl₂]
  · intro env₁ env₂ r₁ r₂ loc₁ loc₂ e₁ e₂ h₁ h₂ hl₁ hl₂ ht₁ ht₂
    rw [orch_temperature_error env₁ r₁ loc₁ e₁ h₁ hl₁ ht₁,
      orch_temperature_error env₂ r₂ loc₂ e₂ h₂ hl₂ ht₂]
  · intro env₁ env₂ r₁ r₂ req₁ req₂ e₁ e₂ hp₁ hp₂ hd₁ hd₂ h₁ h₂ hg₁ hg₂
    rw [gw_forward env₁ r₁ req₁ hp₁ hd₁ h₁, gw_forward env₂ r₂ req₂ hp₂ hd₂ h₂, hg₁, hg₂]
  · intro env₁ env₂ r₁ r₂ req₁ req₂ s₁ s₂ e₁ e₂ hp₁ hp₂ hd₁ hd₂ h₁ h₂ hg₁ hg₂
    rw [gw_forward env₁ r₁ req₁ hp₁ hd₁ h₁, gw_forward env₂ r₂ req₂ hp₂ hd₂ h₂, hg₁, hg₂]

/-- Witness for C10: at the location stage a network error and an unknown code, and at the
Gateway a refused connection and a rejected URL, are answered alike. -/
theorem C10_cause_not_exposed_witness :
    (getLocation orchDown (zipcodeOf sampleRequest)).1 = .error (.transport "no such host") ∧
    (getLocation (sampleWorld (utf8 "São Paulo") weatherRefusal)
      (zipcodeOf ⟨utf8 "zipcode=99999999"⟩)).1 = .error (.cityNotFound (utf8 "99999999")) ∧
    (handleTemperatureRequest orchDown sampleRequest).1
      = (handleTemperatureRequest (sampleWorld (utf8 "São Paulo") weatherRefusal)
          ⟨utf8 "zipcode=99999999"⟩).1 ∧
    (handleZipCodeRequest gatewayDown ⟨"POST", cepBody (utf8 "01001000")⟩).1
      = (handleZipCodeRequest ⟨fun _ => .failed (.transport "invalid control character in URL")⟩
          ⟨"POST", cepBody (utf8 "99999999")⟩).1 :=
  ⟨by decide!, by decide!,
    C10_cause_not_exposed.2.1 orchDown (sampleWorld (utf8 "São Paulo") weatherRefusal)
      sampleRequest ⟨utf8 "zipcode=99999999"⟩ (.transport "no such host")
      (.cityNotFound (utf8 "99999999")) (by decide) (by decide) (by decide!) (by decide!),
    C10_cause_not_exposed.2.2.2.1 gatewayDown
      ⟨fun _ => .failed (.transport "invalid control character in URL")⟩
      ⟨"POST", cepBody (utf8 "01001000")⟩ ⟨"POST", cepBody (utf8 "99999999")⟩
      ⟨utf8 "01001000"⟩ ⟨utf8 "99999999"⟩ (.transport "connection refused")
      (.transport "invalid control character in URL") rfl rfl (decode_cepBody _)
      (decode_cepBody _) (by decide) (by decide) rfl rfl⟩


end CepTemperatura
